import Mathlib

/-!
Verification of the chess-gif pipeline (main.py).

The program is modelled by a shallow embedding: the filesystem is an explicit
table of directories and files, each Python function of main.py becomes a Lean
function from a `World` (filesystem plus stdout) to a `PyResult` that carries
the world reached at the point of return or of the raised exception (Python
exceptions do not roll back filesystem effects).  External libraries are
modelled at their interface: chess moves are opaque tokens, a board is the
sequence of moves pushed onto the initial position, renderings are contents
determined by the board they depict, the PGN grammar (chess.pgn.read_game) is
a parameter, and the imageio writer is modelled as buffering the appended
frames and writing the finished gif file.
-/

/-- Abstract chess move token; the pipeline treats library moves as opaque values. -/
abbrev Move := Nat

/-- chess.Board: the sequence of moves pushed onto the standard initial position. -/
structure Board where
  pushed : List Move
  deriving DecidableEq, Repr

/-- chess.pgn.Game as the pipeline consumes it: its mainline moves. -/
structure Game where
  mainline : List Move
  deriving DecidableEq, Repr

/-- game.board(): a fresh board at the initial position. -/
def Game.board (_ : Game) : Board := ⟨[]⟩

/-- board.push(move). -/
def Board.push (b : Board) (m : Move) : Board := ⟨b.pushed ++ [m]⟩

/-- A Python value as it flows out of argparse: the int default or a CLI string. -/
inductive PyVal where
  | int (n : Int)
  | str (s : String)
  deriving DecidableEq, Repr

/-- File contents: text, a board rendering (vector or raster), or an assembled
gif (its frame boards in order, the duration passed to the writer, and whether
gifsicle optimized it). -/
inductive Content where
  | text (s : String)
  | svg (b : Board)
  | png (b : Board)
  | gif (frames : List Board) (duration : PyVal) (opt : Bool)
  deriving DecidableEq, Repr

/-- A pathlib.Path to a file: parent directory components, stem and suffix. -/
structure PyPath where
  parent : List String
  stem : String
  suffix : String
  deriving DecidableEq, Repr

/-- The filesystem: existing directories (as component lists) and a file table. -/
structure FS where
  dirs : List (List String)
  files : List (PyPath × Content)
  deriving DecidableEq, Repr

/-- Program state: the filesystem and the lines printed so far. -/
structure World where
  fs : FS
  stdout : List String
  deriving DecidableEq, Repr

/-- Outcome of a Python call: normal return or a raised exception, in both
cases together with the world reached at that point. -/
inductive PyErr where
  | fileNotFoundError (msg : String)
  | valueError (msg : String)
  | imageError (msg : String)
  deriving DecidableEq, Repr

inductive PyResult (α : Type) where
  | ok (w : World) (val : α)
  | err (w : World) (e : PyErr)
  deriving DecidableEq, Repr

/-- The world a finished call left behind (also behind a raised exception). -/
def worldOf : PyResult Unit → World
  | .ok w _ => w
  | .err w _ => w

/-- The exception a call raised, if any. -/
def errOf : PyResult Unit → Option PyErr
  | .ok _ _ => none
  | .err _ e => some e

/-- Find the content stored for a path in a file table. -/
def lookupIn : List (PyPath × Content) → PyPath → Option Content
  | [], _ => none
  | e :: rest, p => if e.1 = p then some e.2 else lookupIn rest p

/-- Create or truncate-and-rewrite a file (open(path, "w+") semantics): an
existing entry is replaced in place, a new one is appended to the table. -/
def upsert : List (PyPath × Content) → PyPath → Content → List (PyPath × Content)
  | [], p, c => [(p, c)]
  | e :: rest, p, c => if e.1 = p then (p, c) :: rest else e :: upsert rest p c

/-- Whether a file matches folder.glob("*" + suffix). -/
def matchesGlob (d : List String) (suf : String) (p : PyPath) : Bool :=
  decide (p.parent = d) && decide (p.suffix = suf)

/-- folder.glob("*" + suffix): the matching paths in file-table order. -/
def globIn (files : List (PyPath × Content)) (d : List String) (suf : String) : List PyPath :=
  (files.filter (fun e => matchesGlob d suf e.1)).map (fun e => e.1)

def FS.lookupFile (fs : FS) (p : PyPath) : Option Content := lookupIn fs.files p

/-- The directory exists (the empty path is the always-present working directory). -/
def FS.DirExists (fs : FS) (d : List String) : Prop := d = [] ∨ d ∈ fs.dirs

instance (fs : FS) (d : List String) : Decidable (fs.DirExists d) :=
  decidable_of_iff (d = [] ∨ d ∈ fs.dirs) Iff.rfl

def FS.addDir (fs : FS) (d : List String) : FS :=
  if fs.DirExists d then fs else { fs with dirs := fs.dirs ++ [d] }

/-- All ancestors of a directory, shortest first, the directory itself last. -/
def dirsUpTo (d : List String) : List (List String) :=
  (List.range d.length).map (fun k => d.take (k + 1))

/-- Path.mkdir(parents=True, exist_ok=True): create the directory and every
missing ancestor, tolerating the ones that already exist. -/
def FS.mkdirParents (fs : FS) (d : List String) : FS :=
  (dirsUpTo d).foldl FS.addDir fs

/-- Writing a file requires its parent directory to exist (else OSError). -/
def FS.writeFile (fs : FS) (p : PyPath) (c : Content) : Option FS :=
  if fs.DirExists p.parent then some { fs with files := upsert fs.files p c } else none

/-- shutil.rmtree: drop the directory, everything below it, and every file
staged inside that subtree. -/
def FS.removeTree (fs : FS) (d : List String) : FS :=
  { dirs := fs.dirs.filter (fun x => ! d.isPrefixOf x),
    files := fs.files.filter (fun e => ! d.isPrefixOf e.1.parent) }

/-- Little-endian decimal digits; the first argument is structural fuel that the
wrapper instantiates with the number itself. -/
def toDigitsLEAux : Nat → Nat → List Nat
  | _, 0 => []
  | 0, _ + 1 => []
  | fuel + 1, n + 1 => (n + 1) % 10 :: toDigitsLEAux fuel ((n + 1) / 10)

def toDigitsLE (n : Nat) : List Nat := toDigitsLEAux n n

def digitChar (d : Nat) : Char := Char.ofNat (48 + d)

/-- Decimal rendering of a natural number, as Python str/format produces it. -/
def decimalRepr (n : Nat) : String :=
  if n = 0 then "0" else ⟨(toDigitsLE n).reverse.map digitChar⟩

def digitVal (c : Char) : Option Nat :=
  if 48 ≤ c.toNat ∧ c.toNat ≤ 57 then some (c.toNat - 48) else none

def parseNatAux (acc : Nat) : List Char → Option Nat
  | [] => some acc
  | c :: cs =>
    match digitVal c with
    | some d => parseNatAux (acc * 10 + d) cs
    | none => none

/-- Python int(s) on decimal literals (optional leading minus); none models the
ValueError int() raises on anything else. -/
def pyInt (s : String) : Option Int :=
  match s.data with
  | [] => none
  | c :: cs =>
    if c = '-' then
      match cs with
      | [] => none
      | _ :: _ => (parseNatAux 0 cs).map (fun n => -(n : Int))
    else (parseNatAux 0 (c :: cs)).map (fun n => (n : Int))

/-- main.py read_pgn_file: open(path, "r").read(); a missing file raises. -/
def read_pgn_file (path : PyPath) (w : World) : PyResult String :=
  match w.fs.lookupFile path with
  | some (.text s) => .ok w s
  | some _ => .err w (.valueError "file is not text")
  | none => .err w (.fileNotFoundError "No such file or directory")

/-- main.py pgn_to_game: chess.pgn.read_game over the text; the PGN grammar is
the external chess library, passed in as readGame. -/
def pgn_to_game (readGame : String → Option Game) (pgn : String) : Option Game :=
  readGame pgn

/-- main.py save_svg: mkdir the parent (parents=True, exist_ok=True), then write. -/
def save_svg (svgc : Content) (path : PyPath) (w : World) : PyResult Unit :=
  let fs1 := w.fs.mkdirParents path.parent
  match fs1.writeFile path svgc with
  | some fs2 => .ok { w with fs := fs2 } ()
  | none => .err { w with fs := fs1 } (.fileNotFoundError "No such file or directory")

/-- main.py board_to_svg: chess.svg.board renders the current board. -/
def board_to_svg (b : Board) (path : PyPath) (w : World) : PyResult Unit :=
  save_svg (.svg b) path w

/-- The loop of game_to_svgs: enumerate(mainline_moves, start=1), pushing each
move and rendering the board reached. -/
def game_to_svgs_loop (moves : List Move) (i : Nat) (b : Board) (svgFolderP : List String) (w : World) : PyResult Unit :=
  match moves with
  | [] => .ok w ()
  | m :: rest =>
    let b1 := b.push m
    match board_to_svg b1 ⟨svgFolderP, decimalRepr i, ".svg"⟩ w with
    | .ok w1 _ => game_to_svgs_loop rest (i + 1) b1 svgFolderP w1
    | .err w1 e => .err w1 e

/-- main.py game_to_svgs: render the initial position as 0.svg, then one svg
per mainline move, named by the move number. -/
def game_to_svgs (game : Game) (svgFolderP : List String) (w : World) : PyResult Unit :=
  match board_to_svg game.board ⟨svgFolderP, decimalRepr 0, ".svg"⟩ w with
  | .ok w1 _ => game_to_svgs_loop game.mainline 1 game.board svgFolderP w1
  | .err w1 e => .err w1 e

/-- main.py svg_to_png: default target is stem + ".png" next to the svg; mkdir
the target parent; cairosvg reads the svg file and writes the raster. -/
def svg_to_png (svgPath : PyPath) (pngPathArg : Option PyPath) (w : World) : PyResult Unit :=
  let pngPath := pngPathArg.getD ⟨svgPath.parent, svgPath.stem, ".png"⟩
  let fs1 := w.fs.mkdirParents pngPath.parent
  match lookupIn fs1.files svgPath with
  | some (.svg b) =>
    match fs1.writeFile pngPath (.png b) with
    | some fs2 => .ok { w with fs := fs2 } ()
    | none => .err { w with fs := fs1 } (.fileNotFoundError "No such file or directory")
  | _ => .err { w with fs := fs1 } (.imageError "cairosvg could not read the svg")

/-- The loop of svgs_to_pngs over the globbed svg paths. -/
def svgs_to_pngs_loop (svgs : List PyPath) (pngFolderArg : Option (List String)) (w : World) : PyResult Unit :=
  match svgs with
  | [] => .ok w ()
  | p :: rest =>
    let pngPathArg := pngFolderArg.map (fun d => (⟨d, p.stem, ".png"⟩ : PyPath))
    match svg_to_png p pngPathArg w with
    | .ok w1 _ => svgs_to_pngs_loop rest pngFolderArg w1
    | .err w1 e => .err w1 e

/-- main.py svgs_to_pngs: convert every *.svg of the folder, keeping stems. -/
def svgs_to_pngs (svgFolderP : List String) (pngFolderArg : Option (List String)) (w : World) : PyResult Unit :=
  svgs_to_pngs_loop (globIn w.fs.files svgFolderP ".svg") pngFolderArg w

/-- The sort key of line 65: int(path.stem); none when int() would raise. -/
def intStemKey (p : PyPath) : Option Int := pyInt p.stem

/-- Python sorted(..., key=...) decorates first: every key is computed before
any comparison, and a single failing key raises for the whole call. -/
def computeKeys : List PyPath → Option (List (Int × PyPath))
  | [] => some []
  | p :: rest =>
    match intStemKey p, computeKeys rest with
    | some k, some ks => some ((k, p) :: ks)
    | _, _ => none

def insertKeyed (a : Int × PyPath) : List (Int × PyPath) → List (Int × PyPath)
  | [] => [a]
  | b :: bs => if a.1 ≤ b.1 then a :: b :: bs else b :: insertKeyed a bs

/-- A stable sort by the decorated key, modelling Python's stable sorted. -/
def sortKeyed (l : List (Int × PyPath)) : List (Int × PyPath) :=
  l.foldr insertKeyed []

/-- imageio.imread on each frame file in order; none models the error raised on
a missing or non-raster file. -/
def readFrames (files : List (PyPath × Content)) : List PyPath → Option (List Board)
  | [] => some []
  | p :: rest =>
    match lookupIn files p with
    | some (.png b) => (readFrames files rest).map (fun bs => b :: bs)
    | _ => none

/-- pygifsicle.optimize(src, dst): read the gif and write the optimized version
to dst when given, else over src itself. -/
def pygifsicle_optimize (src : PyPath) (dstArg : Option PyPath) (w : World) : PyResult Unit :=
  match lookupIn w.fs.files src with
  | some (.gif frames dur _) =>
    match w.fs.writeFile (dstArg.getD src) (.gif frames dur true) with
    | some fs1 => .ok { w with fs := fs1 } ()
    | none => .err w (.fileNotFoundError "gifsicle destination folder")
  | _ => .err w (.fileNotFoundError "gifsicle could not read the source gif")

/-- main.py pngs_to_gif: glob the pngs, sort them by int(stem), mkdir the gif
parent, append every frame to the writer, then run the optimization branch
chosen by the optimized option; an unknown value raises ValueError. -/
def pngs_to_gif (pngFolderP : List String) (gifPath : PyPath) (duration : PyVal) (optimized : String) (w : World) : PyResult Unit :=
  match computeKeys (globIn w.fs.files pngFolderP ".png") with
  | none => .err w (.valueError "invalid literal for int with base 10")
  | some keyed =>
    let pngFiles := (sortKeyed keyed).map (fun e => e.2)
    let fs1 := w.fs.mkdirParents gifPath.parent
    match readFrames fs1.files pngFiles with
    | none => .err { w with fs := fs1 } (.imageError "imread failed")
    | some frames =>
      match fs1.writeFile gifPath (.gif frames duration false) with
      | some fs2 =>
        let w2 : World := { w with fs := fs2 }
        if optimized = "new" then
          pygifsicle_optimize gifPath (some ⟨gifPath.parent, gifPath.stem ++ "_optimized", gifPath.suffix⟩) w2
        else if optimized = "overwrite" then
          pygifsicle_optimize gifPath none w2
        else if optimized = "none" then
          .ok w2 ()
        else
          .err w2 (.valueError ("unknown value, optimized=" ++ optimized))
      | none => .err { w with fs := fs1 } (.fileNotFoundError "No such file or directory")

def temp_path : List String := ["temp"]

def svg_folder_path : List String := temp_path ++ ["svg"]

def png_folder_path : List String := temp_path ++ ["png"]

/-- The parsed argparse namespace of main. -/
structure Args where
  pgn_path : PyPath
  gif_path : PyPath
  duration : PyVal
  optimized : String
  deriving DecidableEq, Repr

/-- The duration argparse yields: the int default 1, or the CLI string. -/
def durationVal (durCli : Option String) : PyVal :=
  match durCli with | some s => .str s | none => .int 1

/-- The optimized option argparse yields: the given string, default "new". -/
def optStr (optCli : Option String) : String :=
  match optCli with | some s => s | none => "new"

/-- argparse: the two path positionals; -d defaults to the int 1 while a given
value stays the CLI string; -o defaults to the string "new". -/
def parse_args (pgnP gifP : PyPath) (durCli optCli : Option String) : Args :=
  { pgn_path := pgnP, gif_path := gifP,
    duration := durationVal durCli,
    optimized := optStr optCli }

/-- shutil.rmtree(temp); raises when the directory does not exist. -/
def rmtree (d : List String) (w : World) : PyResult Unit :=
  if d ∈ w.fs.dirs then .ok { w with fs := w.fs.removeTree d } ()
  else .err w (.fileNotFoundError "No such file or directory")

/-- main.py main (Lean reserves the name main): read the pgn, parse it, early-return with a message when no
game parses, otherwise run the three rendering stages and delete temp. -/
def main' (readGame : String → Option Game) (pgnP gifP : PyPath) (durCli optCli : Option String) (w : World) : PyResult Unit :=
  let args := parse_args pgnP gifP durCli optCli
  match read_pgn_file args.pgn_path w with
  | .err w1 e => .err w1 e
  | .ok w1 pgn =>
    match pgn_to_game readGame pgn with
    | none => .ok { w1 with stdout := w1.stdout ++ ["Cannot parse pgn file"] } ()
    | some game =>
      match game_to_svgs game svg_folder_path w1 with
      | .err w2 e => .err w2 e
      | .ok w2 _ =>
        match svgs_to_pngs svg_folder_path (some png_folder_path) w2 with
        | .err w3 e => .err w3 e
        | .ok w3 _ =>
          match pngs_to_gif png_folder_path args.gif_path args.duration args.optimized w3 with
          | .err w4 e => .err w4 e
          | .ok w4 _ => rmtree temp_path w4

/-- The svg staged for the position after i moves. -/
def svgFile (i : Nat) : PyPath := ⟨svg_folder_path, decimalRepr i, ".svg"⟩

/-- The png staged for the position after i moves. -/
def pngFile (i : Nat) : PyPath := ⟨png_folder_path, decimalRepr i, ".png"⟩

/-- The board after the first i mainline moves. -/
def prefixBoard (ms : List Move) (i : Nat) : Board := ⟨ms.take i⟩

/-- The boards depicted by the frames of the finished animation, in order. -/
def frameList (ms : List Move) : List Board :=
  (List.range (ms.length + 1)).map (prefixBoard ms)

/-- The chain of boards a game visits from a given board. -/
def boardChain (b : Board) : List Move → List Board
  | [] => [b]
  | m :: rest => b :: boardChain (b.push m) rest

/-- Replaying consecutive rendered positions recovers the moves between them. -/
def replay : List Board → List Move
  | b :: b1 :: rest => b1.pushed.drop b.pushed.length ++ replay (b1 :: rest)
  | _ => []

/-- No file of the world is staged under the temporary working directory. -/
def CleanTemp (w : World) : Prop :=
  ∀ e ∈ w.fs.files, temp_path.isPrefixOf e.1.parent = false

instance (w : World) : Decidable (CleanTemp w) :=
  decidable_of_iff (∀ e ∈ w.fs.files, temp_path.isPrefixOf e.1.parent = false) Iff.rfl

/-- The path of the extra optimized copy: original stem + "_optimized". -/
def optPathOf (gifP : PyPath) : PyPath :=
  ⟨gifP.parent, gifP.stem ++ "_optimized", gifP.suffix⟩

/-- The output files a successful run leaves, per optimized option. -/
def gifOutputs (gifP : PyPath) (frames : List Board) (dur : PyVal) (opt : String) : List (PyPath × Content) :=
  if opt = "new" then [(gifP, .gif frames dur false), (optPathOf gifP, .gif frames dur true)]
  else if opt = "overwrite" then [(gifP, .gif frames dur true)]
  else [(gifP, .gif frames dur false)]

/-- A concrete notation-file path used by the concrete example runs. -/
def demoPgnPath : PyPath := ⟨[], "game", ".pgn"⟩

/-- A concrete output path (in a not-yet-existing directory) for example runs. -/
def demoGifPath : PyPath := ⟨["out"], "anim", ".gif"⟩

/-- A concrete starting world: only the notation file of a one-move game. -/
def demoWorld : World := ⟨⟨[], [(demoPgnPath, .text "1. e4")]⟩, []⟩

/-- A concrete starting world whose notation file holds unparseable text. -/
def demoBadWorld : World := ⟨⟨[], [(demoPgnPath, .text "not a game")]⟩, []⟩

/-- A concrete empty world: the notation file is missing. -/
def demoEmptyWorld : World := ⟨⟨[], []⟩, []⟩

/-- A concrete stand-in for the external PGN parser: it parses exactly the text
of the one-move game "1. e4" into a game with one mainline move. -/
def demoReadGame : String → Option Game :=
  fun s => if s = "1. e4" then some ⟨[5]⟩ else none

/-- The game demoReadGame yields. -/
def demoGame : Game := ⟨[5]⟩

/-- A concrete world holding one readable svg rendering. -/
def demoSvgWorld : World := ⟨⟨[], [(⟨["s"], "0", ".svg"⟩, .svg ⟨[]⟩)]⟩, []⟩

/-- A concrete world with the fully staged renderings of a one-move game. -/
def demoStagedWorld : World :=
  ⟨⟨[], [(svgFile 0, .svg (prefixBoard [7] 0)), (svgFile 1, .svg (prefixBoard [7] 1)),
    (pngFile 0, .png (prefixBoard [7] 0)), (pngFile 1, .png (prefixBoard [7] 1))]⟩, []⟩

/-- A concrete world whose staging folder holds a png with a non-numeric stem. -/
def demoStemWorld : World := ⟨⟨[], [(⟨png_folder_path, "x", ".png"⟩, .png ⟨[]⟩)]⟩, []⟩

/-! ### Decimal digits: rendering and parsing round-trip -/

theorem toDigitsLEAux_lt10 : ∀ fuel n d, d ∈ toDigitsLEAux fuel n → d < 10 := by
  intro fuel
  induction fuel with
  | zero =>
    intro n d h
    cases n <;> simp [toDigitsLEAux] at h
  | succ f ih =>
    intro n d h
    cases n with
    | zero => simp [toDigitsLEAux] at h
    | succ m =>
      simp only [toDigitsLEAux, List.mem_cons] at h
      rcases h with h | h
      · subst h
        exact Nat.mod_lt _ (by omega)
      · exact ih _ _ h

theorem toDigitsLEAux_foldr : ∀ fuel n, n ≤ fuel →
    (toDigitsLEAux fuel n).foldr (fun d a => a * 10 + d) 0 = n := by
  intro fuel
  induction fuel with
  | zero =>
    intro n hn
    interval_cases n
    simp [toDigitsLEAux]
  | succ f ih =>
    intro n hn
    cases n with
    | zero => simp [toDigitsLEAux]
    | succ m =>
      have hdiv : (m + 1) / 10 ≤ f := by
        have := Nat.div_lt_self (Nat.succ_pos m) (by omega : 1 < 10)
        omega
      simp only [toDigitsLEAux, List.foldr_cons]
      rw [ih _ hdiv]
      omega

theorem digitVal_digitChar {d : Nat} (hd : d < 10) : digitVal (digitChar d) = some d := by
  interval_cases d <;> decide

theorem digitChar_ne_dash {d : Nat} (hd : d < 10) : digitChar d ≠ '-' := by
  interval_cases d <;> decide

theorem parseNatAux_digits : ∀ (ds : List Nat) (acc : Nat), (∀ d ∈ ds, d < 10) →
    parseNatAux acc (ds.map digitChar) = some (ds.foldl (fun a d => a * 10 + d) acc) := by
  intro ds
  induction ds with
  | nil =>
    intro acc _
    simp [parseNatAux]
  | cons d rest ih =>
    intro acc h
    have hd : d < 10 := h d (by simp)
    simp only [List.map_cons, parseNatAux, digitVal_digitChar hd, List.foldl_cons]
    exact ih _ (fun x hx => h x (by simp [hx]))

theorem pyInt_decimalRepr (n : Nat) : pyInt (decimalRepr n) = some (n : Int) := by
  cases n with
  | zero => decide
  | succ m =>
    have hne : (m + 1 : Nat) ≠ 0 := Nat.succ_ne_zero m
    have hdata : (decimalRepr (m + 1)).data = (toDigitsLE (m + 1)).reverse.map digitChar := by
      rw [decimalRepr, if_neg hne]
    have hlt : ∀ d ∈ (toDigitsLE (m + 1)).reverse, d < 10 := by
      intro d hd
      exact toDigitsLEAux_lt10 _ _ _ (List.mem_reverse.mp hd)
    have hfold : (toDigitsLE (m + 1)).reverse.foldl (fun a d => a * 10 + d) 0 = m + 1 := by
      rw [List.foldl_reverse]
      exact toDigitsLEAux_foldr _ _ (le_refl _)
    unfold pyInt
    rw [hdata]
    cases hrev : (toDigitsLE (m + 1)).reverse with
    | nil =>
      exfalso
      have : toDigitsLE (m + 1) = [] := by
        simpa using congrArg List.reverse hrev
      simp [toDigitsLE, toDigitsLEAux] at this
    | cons d ds =>
      have hdlt : d < 10 := hlt d (by rw [hrev]; simp)
      have hdslt : ∀ x ∈ d :: ds, x < 10 := by rw [← hrev]; exact hlt
      simp only [List.map_cons]
      rw [if_neg (digitChar_ne_dash hdlt)]
      have hparse := parseNatAux_digits (d :: ds) 0 hdslt
      simp only [List.map_cons] at hparse
      rw [hparse]
      rw [hrev] at hfold
      rw [hfold]
      simp

theorem decimalRepr_inj {a b : Nat} (h : decimalRepr a = decimalRepr b) : a = b := by
  have ha := pyInt_decimalRepr a
  have hb := pyInt_decimalRepr b
  rw [h, hb] at ha
  have : (b : Int) = (a : Int) := by
    injection ha
  exact_mod_cast this.symm

theorem svgFile_inj {a b : Nat} (h : svgFile a = svgFile b) : a = b := by
  apply decimalRepr_inj
  simpa [svgFile] using congrArg PyPath.stem h

theorem pngFile_inj {a b : Nat} (h : pngFile a = pngFile b) : a = b := by
  apply decimalRepr_inj
  simpa [pngFile] using congrArg PyPath.stem h

/-! ### File-table lemmas -/

theorem lookupIn_append_some {l1 l2 : List (PyPath × Content)} {p : PyPath} {c : Content}
    (h : lookupIn l1 p = some c) : lookupIn (l1 ++ l2) p = some c := by
  induction l1 with
  | nil => simp [lookupIn] at h
  | cons e rest ih =>
    by_cases he : e.1 = p
    · simpa [lookupIn, he] using h
    · simp only [List.cons_append, lookupIn, if_neg he] at h ⊢
      exact ih h

theorem lookupIn_append_none {l1 l2 : List (PyPath × Content)} {p : PyPath}
    (h : lookupIn l1 p = none) : lookupIn (l1 ++ l2) p = lookupIn l2 p := by
  induction l1 with
  | nil => simp
  | cons e rest ih =>
    by_cases he : e.1 = p
    · simp [lookupIn, he] at h
    · simp only [lookupIn, if_neg he] at h
      simp only [List.cons_append, lookupIn, if_neg he]
      exact ih h

theorem lookupIn_eq_none {l : List (PyPath × Content)} {p : PyPath}
    (h : ∀ e ∈ l, e.1 ≠ p) : lookupIn l p = none := by
  induction l with
  | nil => rfl
  | cons e rest ih =>
    have he : e.1 ≠ p := h e (by simp)
    simp only [lookupIn, if_neg he]
    exact ih (fun x hx => h x (by simp [hx]))

theorem lookupIn_pairwise_mem {l : List (PyPath × Content)}
    (hpw : l.Pairwise (fun a b => a.1 ≠ b.1)) {p : PyPath} {c : Content}
    (hm : (p, c) ∈ l) : lookupIn l p = some c := by
  induction l with
  | nil => simp at hm
  | cons e rest ih =>
    rcases List.mem_cons.mp hm with rfl | hm'
    · simp [lookupIn]
    · have hne : e.1 ≠ p := by
        have := (List.pairwise_cons.mp hpw).1 (p, c) hm'
        simpa using this
      simp only [lookupIn, if_neg hne]
      exact ih (List.pairwise_cons.mp hpw).2 hm'

theorem upsert_of_none {l : List (PyPath × Content)} {p : PyPath} (c : Content)
    (h : lookupIn l p = none) : upsert l p c = l ++ [(p, c)] := by
  induction l with
  | nil => rfl
  | cons e rest ih =>
    by_cases he : e.1 = p
    · simp [lookupIn, he] at h
    · simp only [lookupIn, if_neg he] at h
      simp only [upsert, if_neg he, List.cons_append]
      rw [ih h]

theorem upsert_append_of_none {l1 l2 : List (PyPath × Content)} {p : PyPath} (c : Content)
    (h : lookupIn l1 p = none) : upsert (l1 ++ l2) p c = l1 ++ upsert l2 p c := by
  induction l1 with
  | nil => rfl
  | cons e rest ih =>
    by_cases he : e.1 = p
    · simp [lookupIn, he] at h
    · simp only [lookupIn, if_neg he] at h
      simp only [List.cons_append, upsert, if_neg he]
      rw [List.append_eq, ih h]

theorem lookupIn_upsert_self (l : List (PyPath × Content)) (p : PyPath) (c : Content) :
    lookupIn (upsert l p c) p = some c := by
  induction l with
  | nil => simp [upsert, lookupIn]
  | cons e rest ih =>
    by_cases he : e.1 = p
    · simp [upsert, he, lookupIn]
    · simp only [upsert, if_neg he, lookupIn, if_neg he]
      exact ih

theorem globIn_append (l1 l2 : List (PyPath × Content)) (d : List String) (s : String) :
    globIn (l1 ++ l2) d s = globIn l1 d s ++ globIn l2 d s := by
  simp [globIn, List.filter_append]

theorem globIn_eq_nil {l : List (PyPath × Content)} {d : List String} {s : String}
    (h : ∀ e ∈ l, matchesGlob d s e.1 = false) : globIn l d s = [] := by
  have : l.filter (fun e => matchesGlob d s e.1) = [] := by
    rw [List.filter_eq_nil_iff]
    intro a ha
    simp [h a ha]
  simp [globIn, this]

theorem globIn_eq_map {l : List (PyPath × Content)} {d : List String} {s : String}
    (h : ∀ e ∈ l, matchesGlob d s e.1 = true) : globIn l d s = l.map (fun e => e.1) := by
  have : l.filter (fun e => matchesGlob d s e.1) = l := List.filter_eq_self.mpr h
  simp [globIn, this]

/-! ### Directory lemmas -/

theorem addDir_files (fs : FS) (d : List String) : (fs.addDir d).files = fs.files := by
  unfold FS.addDir
  split <;> rfl

theorem foldl_addDir_files (ds : List (List String)) (fs : FS) :
    (ds.foldl FS.addDir fs).files = fs.files := by
  induction ds generalizing fs with
  | nil => rfl
  | cons d rest ih => rw [List.foldl_cons, ih, addDir_files]

theorem mkdirParents_files (fs : FS) (d : List String) :
    (fs.mkdirParents d).files = fs.files :=
  foldl_addDir_files _ _

theorem DirExists_addDir_mono {fs : FS} {e : List String} (h : fs.DirExists e)
    (d : List String) : (fs.addDir d).DirExists e := by
  unfold FS.addDir
  split
  · exact h
  · rcases h with h | h
    · exact Or.inl h
    · exact Or.inr (List.mem_append_left _ h)

theorem DirExists_addDir_self (fs : FS) (d : List String) : (fs.addDir d).DirExists d := by
  by_cases h : fs.DirExists d
  · simp only [FS.addDir, if_pos h]
    exact h
  · simp only [FS.addDir, if_neg h]
    exact Or.inr (by simp)

theorem DirExists_foldl_addDir_mono {fs : FS} {e : List String} (h : fs.DirExists e)
    (ds : List (List String)) : (ds.foldl FS.addDir fs).DirExists e := by
  induction ds generalizing fs with
  | nil => exact h
  | cons d rest ih => exact ih (DirExists_addDir_mono h d)

theorem DirExists_foldl_addDir_mem {ds : List (List String)} {e : List String}
    (h : e ∈ ds) (fs : FS) : (ds.foldl FS.addDir fs).DirExists e := by
  induction ds generalizing fs with
  | nil => simp at h
  | cons d rest ih =>
    rcases List.mem_cons.mp h with rfl | h'
    · exact DirExists_foldl_addDir_mono (DirExists_addDir_self fs e) rest
    · exact ih h' _

theorem DirExists_mkdirParents_mono {fs : FS} {e : List String} (h : fs.DirExists e)
    (d : List String) : (fs.mkdirParents d).DirExists e :=
  DirExists_foldl_addDir_mono h _

theorem DirExists_mkdirParents_mem {d e : List String} (h : e ∈ dirsUpTo d) (fs : FS) :
    (fs.mkdirParents d).DirExists e :=
  DirExists_foldl_addDir_mem h fs

theorem mem_dirsUpTo_self {d : List String} (h : d ≠ []) : d ∈ dirsUpTo d := by
  have hlen : d.length ≠ 0 := fun hl => h (List.length_eq_zero.mp hl)
  refine List.mem_map.mpr ⟨d.length - 1, List.mem_range.mpr (by omega), ?_⟩
  rw [(by omega : d.length - 1 + 1 = d.length), List.take_length]

theorem mkdirParents_DirExists_self {d : List String} (h : d ≠ []) (fs : FS) :
    (fs.mkdirParents d).DirExists d :=
  DirExists_mkdirParents_mem (mem_dirsUpTo_self h) fs

theorem writeFile_of_DirExists {fs : FS} {p : PyPath} (c : Content)
    (h : fs.DirExists p.parent) :
    fs.writeFile p c = some { fs with files := upsert fs.files p c } := by
  simp [FS.writeFile, h]

theorem DirExists_set_files {fs : FS} {e : List String} (h : fs.DirExists e)
    (l : List (PyPath × Content)) : ({ fs with files := l } : FS).DirExists e := h

/-! ### Helper facts about staged paths -/

theorem matchesGlob_of_ne_parent {d : List String} {s : String} {p : PyPath}
    (h : p.parent ≠ d) : matchesGlob d s p = false := by
  simp [matchesGlob, h]

theorem matchesGlob_svgFile (i : Nat) : matchesGlob svg_folder_path ".svg" (svgFile i) = true := by
  simp [matchesGlob, svgFile]

theorem matchesGlob_pngFile (i : Nat) : matchesGlob png_folder_path ".png" (pngFile i) = true := by
  simp [matchesGlob, pngFile]

theorem parent_ne_svg_of_clean {par : List String}
    (h : temp_path.isPrefixOf par = false) : par ≠ svg_folder_path := by
  intro hc
  rw [hc] at h
  exact absurd h (by decide)

theorem parent_ne_png_of_clean {par : List String}
    (h : temp_path.isPrefixOf par = false) : par ≠ png_folder_path := by
  intro hc
  rw [hc] at h
  exact absurd h (by decide)

theorem pairwise_keys_svg (n : Nat) (g : Nat → Content) :
    ((List.range n).map (fun i => (svgFile i, g i))).Pairwise
      (fun a b : PyPath × Content => a.1 ≠ b.1) :=
  (List.pairwise_lt_range n).map _
    (fun _ _ hab hc => absurd (svgFile_inj hc) (Nat.ne_of_lt hab))

theorem pairwise_keys_png (n : Nat) (g : Nat → Content) :
    ((List.range n).map (fun i => (pngFile i, g i))).Pairwise
      (fun a b : PyPath × Content => a.1 ≠ b.1) :=
  (List.pairwise_lt_range n).map _
    (fun _ _ hab hc => absurd (pngFile_inj hc) (Nat.ne_of_lt hab))

/-! ### Stage specifications -/

theorem save_svg_spec (c : Content) (path : PyPath) (w : World) :
    ∃ fs2 : FS,
      save_svg c path w = .ok { w with fs := fs2 } () ∧
      fs2.files = upsert w.fs.files path c ∧
      (∀ d, w.fs.DirExists d → fs2.DirExists d) ∧
      (∀ e ∈ dirsUpTo path.parent, fs2.DirExists e) ∧
      fs2.DirExists path.parent := by
  have hpar : (w.fs.mkdirParents path.parent).DirExists path.parent := by
    cases hp : path.parent with
    | nil => exact Or.inl rfl
    | cons a l =>
      exact mkdirParents_DirExists_self (by simp [hp]) _
  refine ⟨{ w.fs.mkdirParents path.parent with
      files := upsert (w.fs.mkdirParents path.parent).files path c }, ?_, ?_, ?_, ?_, ?_⟩
  · simp only [save_svg]
    rw [writeFile_of_DirExists c hpar]
  · show upsert (w.fs.mkdirParents path.parent).files path c = upsert w.fs.files path c
    rw [mkdirParents_files]
  · intro d hd
    exact DirExists_set_files (DirExists_mkdirParents_mono hd _) _
  · intro e he
    exact DirExists_set_files (DirExists_mkdirParents_mem he _) _
  · exact DirExists_set_files hpar _

theorem game_to_svgs_loop_spec :
    ∀ (ms : List Move) (i : Nat) (b : Board) (w : World),
      (∀ k, i ≤ k → lookupIn w.fs.files (svgFile k) = none) →
      ∃ fs2 : FS,
        game_to_svgs_loop ms i b svg_folder_path w = .ok { w with fs := fs2 } () ∧
        fs2.files = w.fs.files ++
          (List.range ms.length).map
            (fun j => (svgFile (i + j), Content.svg ⟨b.pushed ++ ms.take (j + 1)⟩)) ∧
        (∀ d, w.fs.DirExists d → fs2.DirExists d) := by
  intro ms
  induction ms with
  | nil =>
    intro i b w _
    exact ⟨w.fs, by simp [game_to_svgs_loop], by simp, fun d h => h⟩
  | cons m rest ih =>
    intro i b w hfresh
    obtain ⟨fsA, hrunA, hfilesA, hmonoA, _, _⟩ := save_svg_spec (.svg (b.push m)) (svgFile i) w
    have hfilesA' : fsA.files = w.fs.files ++ [(svgFile i, Content.svg (b.push m))] := by
      rw [hfilesA, upsert_of_none _ (hfresh i (le_refl i))]
    have hfresh' : ∀ k, i + 1 ≤ k →
        lookupIn ({ w with fs := fsA } : World).fs.files (svgFile k) = none := by
      intro k hk
      show lookupIn fsA.files (svgFile k) = none
      rw [hfilesA', lookupIn_append_none (hfresh k (by omega))]
      apply lookupIn_eq_none
      intro e he
      rw [List.mem_singleton] at he
      subst he
      intro hc
      exact absurd (svgFile_inj hc) (by omega)
    obtain ⟨fsB, hrunB, hfilesB, hmonoB⟩ := ih (i + 1) (b.push m) { w with fs := fsA } hfresh'
    refine ⟨fsB, ?_, ?_, ?_⟩
    · have hrunA' : board_to_svg (b.push m) ⟨svg_folder_path, decimalRepr i, ".svg"⟩ w =
          .ok { w with fs := fsA } () := hrunA
      simp only [game_to_svgs_loop]
      rw [hrunA']
      exact hrunB
    · rw [hfilesB]
      show fsA.files ++ _ = _
      rw [hfilesA', List.append_assoc]
      congr 1
      rw [List.length_cons, List.range_succ_eq_map, List.map_cons, List.map_map,
        List.singleton_append]
      congr 1
      apply List.map_congr_left
      intro j _
      show (svgFile (i + 1 + j), Content.svg ⟨(b.push m).pushed ++ List.take (j + 1) rest⟩)
          = (svgFile (i + Nat.succ j),
             Content.svg ⟨b.pushed ++ List.take (Nat.succ j + 1) (m :: rest)⟩)
      rw [show i + Nat.succ j = i + 1 + j by omega, List.take_succ_cons, List.append_cons]
      rfl
    · intro d hd
      exact hmonoB d (hmonoA d hd)

theorem game_to_svgs_spec (game : Game) (w : World)
    (hfresh : ∀ k, lookupIn w.fs.files (svgFile k) = none) :
    ∃ fs2 : FS,
      game_to_svgs game svg_folder_path w = .ok { w with fs := fs2 } () ∧
      fs2.files = w.fs.files ++
        (List.range (game.mainline.length + 1)).map
          (fun i => (svgFile i, Content.svg (prefixBoard game.mainline i))) ∧
      (∀ d, w.fs.DirExists d → fs2.DirExists d) ∧
      (∀ e ∈ dirsUpTo svg_folder_path, fs2.DirExists e) := by
  obtain ⟨fsA, hrunA, hfilesA, hmonoA, hupToA, _⟩ := save_svg_spec (.svg game.board) (svgFile 0) w
  have hfilesA' : fsA.files = w.fs.files ++ [(svgFile 0, Content.svg game.board)] := by
    rw [hfilesA, upsert_of_none _ (hfresh 0)]
  have hfresh' : ∀ k, 1 ≤ k →
      lookupIn ({ w with fs := fsA } : World).fs.files (svgFile k) = none := by
    intro k hk
    show lookupIn fsA.files (svgFile k) = none
    rw [hfilesA', lookupIn_append_none (hfresh k)]
    apply lookupIn_eq_none
    intro e he
    rw [List.mem_singleton] at he
    subst he
    intro hc
    exact absurd (svgFile_inj hc) (by omega)
  obtain ⟨fsB, hrunB, hfilesB, hmonoB⟩ :=
    game_to_svgs_loop_spec game.mainline 1 game.board { w with fs := fsA } hfresh'
  refine ⟨fsB, ?_, ?_, ?_, ?_⟩
  · have hrunA' : board_to_svg game.board ⟨svg_folder_path, decimalRepr 0, ".svg"⟩ w =
        .ok { w with fs := fsA } () := hrunA
    simp only [game_to_svgs]
    rw [hrunA']
    exact hrunB
  · rw [hfilesB]
    show fsA.files ++ _ = _
    rw [hfilesA', List.append_assoc]
    congr 1
    rw [List.range_succ_eq_map, List.map_cons, List.map_map, List.singleton_append]
    congr 1
    apply List.map_congr_left
    intro j _
    show (svgFile (1 + j), Content.svg ⟨game.board.pushed ++ List.take (j + 1) game.mainline⟩)
        = (svgFile (Nat.succ j), Content.svg (prefixBoard game.mainline (Nat.succ j)))
    rw [show (1 : Nat) + j = Nat.succ j by omega]
    rfl
  · intro d hd
    exact hmonoB d (hmonoA d hd)
  · intro e he
    exact hmonoB e (hupToA e he)

theorem svg_to_png_spec {b : Board} (svgPath pngPath : PyPath) (w : World)
    (hsvg : lookupIn w.fs.files svgPath = some (.svg b)) :
    ∃ fs2 : FS,
      svg_to_png svgPath (some pngPath) w = .ok { w with fs := fs2 } () ∧
      fs2.files = upsert w.fs.files pngPath (.png b) ∧
      (∀ d, w.fs.DirExists d → fs2.DirExists d) ∧
      fs2.DirExists pngPath.parent := by
  have hpar : (w.fs.mkdirParents pngPath.parent).DirExists pngPath.parent := by
    cases hp : pngPath.parent with
    | nil => exact Or.inl rfl
    | cons a l =>
      exact mkdirParents_DirExists_self (by simp [hp]) _
  have hsvg1 : lookupIn (w.fs.mkdirParents pngPath.parent).files svgPath = some (.svg b) := by
    rw [mkdirParents_files]
    exact hsvg
  refine ⟨{ w.fs.mkdirParents pngPath.parent with
      files := upsert (w.fs.mkdirParents pngPath.parent).files pngPath (.png b) }, ?_, ?_, ?_, ?_⟩
  · simp only [svg_to_png, Option.getD_some, hsvg1]
    rw [writeFile_of_DirExists (.png b) hpar]
  · show upsert (w.fs.mkdirParents pngPath.parent).files pngPath (.png b)
        = upsert w.fs.files pngPath (.png b)
    rw [mkdirParents_files]
  · intro d hd
    exact DirExists_set_files (DirExists_mkdirParents_mono hd _) _
  · exact DirExists_set_files hpar _

theorem svgs_to_pngs_loop_spec :
    ∀ (idxs : List Nat) (pb : Nat → Board) (w : World),
      idxs.Nodup →
      (∀ i ∈ idxs, lookupIn w.fs.files (svgFile i) = some (.svg (pb i))) →
      (∀ i ∈ idxs, lookupIn w.fs.files (pngFile i) = none) →
      ∃ fs2 : FS,
        svgs_to_pngs_loop (idxs.map svgFile) (some png_folder_path) w =
          .ok { w with fs := fs2 } () ∧
        fs2.files = w.fs.files ++ idxs.map (fun i => (pngFile i, Content.png (pb i))) ∧
        (∀ d, w.fs.DirExists d → fs2.DirExists d) := by
  intro idxs
  induction idxs with
  | nil =>
    intro pb w _ _ _
    exact ⟨w.fs, by simp [svgs_to_pngs_loop], by simp, fun d h => h⟩
  | cons i rest ih =>
    intro pb w hnd hread hfresh
    obtain ⟨hni, hnd'⟩ := List.nodup_cons.mp hnd
    obtain ⟨fsA, hrunA, hfilesA, hmonoA, _⟩ :=
      svg_to_png_spec (svgFile i) (pngFile i) w (hread i (by simp))
    have hfilesA' : fsA.files = w.fs.files ++ [(pngFile i, Content.png (pb i))] := by
      rw [hfilesA, upsert_of_none _ (hfresh i (by simp))]
    have hread' : ∀ j ∈ rest,
        lookupIn ({ w with fs := fsA } : World).fs.files (svgFile j) = some (.svg (pb j)) := by
      intro j hj
      show lookupIn fsA.files (svgFile j) = some (.svg (pb j))
      rw [hfilesA']
      exact lookupIn_append_some (hread j (by simp [hj]))
    have hfresh' : ∀ j ∈ rest,
        lookupIn ({ w with fs := fsA } : World).fs.files (pngFile j) = none := by
      intro j hj
      show lookupIn fsA.files (pngFile j) = none
      rw [hfilesA', lookupIn_append_none (hfresh j (by simp [hj]))]
      apply lookupIn_eq_none
      intro e he
      rw [List.mem_singleton] at he
      subst he
      intro hc
      exact hni (pngFile_inj hc ▸ hj)
    obtain ⟨fsB, hrunB, hfilesB, hmonoB⟩ := ih pb { w with fs := fsA } hnd' hread' hfresh'
    refine ⟨fsB, ?_, ?_, ?_⟩
    · have hrunA' : svg_to_png (svgFile i)
          (some ⟨png_folder_path, (svgFile i).stem, ".png"⟩) w =
          .ok { w with fs := fsA } () := hrunA
      simp only [List.map_cons, svgs_to_pngs_loop, Option.map_some']
      rw [hrunA']
      exact hrunB
    · rw [hfilesB]
      show fsA.files ++ _ = _
      rw [hfilesA', List.append_assoc, List.singleton_append, List.map_cons]
    · intro d hd
      exact hmonoB d (hmonoA d hd)

/-! ### Sorting, keys and frame reading -/

theorem svg_ne_png_folder : svg_folder_path ≠ png_folder_path := by decide

theorem temp_isPrefixOf_svg : temp_path.isPrefixOf svg_folder_path = true := by decide

theorem temp_isPrefixOf_png : temp_path.isPrefixOf png_folder_path = true := by decide

theorem computeKeys_pngFiles : ∀ idxs : List Nat,
    computeKeys (idxs.map pngFile) = some (idxs.map (fun i : Nat => ((i : Int), pngFile i))) := by
  intro idxs
  induction idxs with
  | nil => rfl
  | cons i rest ih =>
    have hk : intStemKey (pngFile i) = some (i : Int) := pyInt_decimalRepr i
    simp only [List.map_cons, computeKeys, hk, ih]

theorem insertKeyed_le_head {a b : Int × PyPath} {bs : List (Int × PyPath)} (h : a.1 ≤ b.1) :
    insertKeyed a (b :: bs) = a :: b :: bs := by
  simp [insertKeyed, h]

theorem sortKeyed_of_pairwise : ∀ l : List (Int × PyPath),
    l.Pairwise (fun a b => a.1 ≤ b.1) → sortKeyed l = l := by
  intro l
  induction l with
  | nil => intro _; rfl
  | cons a rest ih =>
    intro hpw
    obtain ⟨hhead, htail⟩ := List.pairwise_cons.mp hpw
    show insertKeyed a (sortKeyed rest) = a :: rest
    rw [ih htail]
    cases rest with
    | nil => rfl
    | cons b bs => exact insertKeyed_le_head (hhead b (by simp))

theorem pairwise_le_keys (n : Nat) :
    ((List.range n).map (fun i : Nat => ((i : Int), pngFile i))).Pairwise
      (fun a b : Int × PyPath => a.1 ≤ b.1) := by
  refine (List.pairwise_lt_range n).map _ ?_
  intro a b hab
  show (a : Int) ≤ (b : Int)
  exact_mod_cast Nat.le_of_lt hab

theorem readFrames_spec : ∀ (idxs : List Nat) (files : List (PyPath × Content)) (pb : Nat → Board),
    (∀ i ∈ idxs, lookupIn files (pngFile i) = some (.png (pb i))) →
    readFrames files (idxs.map pngFile) = some (idxs.map pb) := by
  intro idxs
  induction idxs with
  | nil => intro _ _ _; rfl
  | cons i rest ih =>
    intro files pb h
    simp only [List.map_cons, readFrames, h i (by simp),
      ih files pb (fun j hj => h j (by simp [hj])), Option.map_some']

theorem ne_optPathOf (p : PyPath) : p ≠ optPathOf p := by
  intro h
  have hs : p.stem = p.stem ++ "_optimized" := congrArg PyPath.stem h
  have hl := congrArg String.length hs
  rw [String.length_append] at hl
  have h10 : ("_optimized" : String).length = 10 := rfl
  rw [h10] at hl
  omega

/-! ### Lookups in the fully staged file table -/

theorem lookupIn_svgEntries_ne {ms : List Move} {n : Nat} {p : PyPath}
    (h : p.parent ≠ svg_folder_path) :
    lookupIn ((List.range n).map (fun i => (svgFile i, Content.svg (prefixBoard ms i)))) p
      = none := by
  apply lookupIn_eq_none
  intro e he hc
  obtain ⟨j, _, rfl⟩ := List.mem_map.mp he
  exact h ((congrArg PyPath.parent hc).symm ▸ rfl)

theorem lookupIn_pngEntries_ne {ms : List Move} {n : Nat} {p : PyPath}
    (h : p.parent ≠ png_folder_path) :
    lookupIn ((List.range n).map (fun i => (pngFile i, Content.png (prefixBoard ms i)))) p
      = none := by
  apply lookupIn_eq_none
  intro e he hc
  obtain ⟨j, _, rfl⟩ := List.mem_map.mp he
  exact h ((congrArg PyPath.parent hc).symm ▸ rfl)

theorem parent_ne_svg_of_not_temp {p : PyPath}
    (h : temp_path.isPrefixOf p.parent = false) : p.parent ≠ svg_folder_path := by
  intro hc
  rw [hc, temp_isPrefixOf_svg] at h
  cases h

theorem parent_ne_png_of_not_temp {p : PyPath}
    (h : temp_path.isPrefixOf p.parent = false) : p.parent ≠ png_folder_path := by
  intro hc
  rw [hc, temp_isPrefixOf_png] at h
  cases h

theorem lookupIn_base_ne_svg {base : List (PyPath × Content)}
    (hbase : ∀ e ∈ base, temp_path.isPrefixOf e.1.parent = false) (i : Nat) :
    lookupIn base (svgFile i) = none := by
  apply lookupIn_eq_none
  intro e he hc
  have hpar : e.1.parent = svg_folder_path := by rw [hc]; rfl
  have hb := hbase e he
  rw [hpar, temp_isPrefixOf_svg] at hb
  cases hb

theorem lookupIn_base_ne_png {base : List (PyPath × Content)}
    (hbase : ∀ e ∈ base, temp_path.isPrefixOf e.1.parent = false) (i : Nat) :
    lookupIn base (pngFile i) = none := by
  apply lookupIn_eq_none
  intro e he hc
  have hpar : e.1.parent = png_folder_path := by rw [hc]; rfl
  have hb := hbase e he
  rw [hpar, temp_isPrefixOf_png] at hb
  cases hb

/-! ### svgs_to_pngs over the staged svg folder -/

theorem svgs_to_pngs_spec (ms : List Move) (base : List (PyPath × Content)) (w : World)
    (hw : w.fs.files = base ++ (List.range (ms.length + 1)).map
        (fun i => (svgFile i, Content.svg (prefixBoard ms i))))
    (hbase : ∀ e ∈ base, temp_path.isPrefixOf e.1.parent = false) :
    ∃ fs2 : FS,
      svgs_to_pngs svg_folder_path (some png_folder_path) w = .ok { w with fs := fs2 } () ∧
      fs2.files = w.fs.files ++ (List.range (ms.length + 1)).map
        (fun i => (pngFile i, Content.png (prefixBoard ms i))) ∧
      (∀ d, w.fs.DirExists d → fs2.DirExists d) := by
  have hglob : globIn w.fs.files svg_folder_path ".svg" =
      (List.range (ms.length + 1)).map svgFile := by
    rw [hw, globIn_append]
    have h1 : globIn base svg_folder_path ".svg" = [] := by
      apply globIn_eq_nil
      intro e he
      exact matchesGlob_of_ne_parent (parent_ne_svg_of_not_temp (hbase e he))
    have h2 : globIn ((List.range (ms.length + 1)).map
        (fun i => (svgFile i, Content.svg (prefixBoard ms i)))) svg_folder_path ".svg" =
        ((List.range (ms.length + 1)).map
          (fun i => (svgFile i, Content.svg (prefixBoard ms i)))).map (fun e => e.1) := by
      apply globIn_eq_map
      intro e he
      obtain ⟨i, _, rfl⟩ := List.mem_map.mp he
      exact matchesGlob_svgFile i
    rw [h1, h2]
    simp [List.map_map, Function.comp]
  have hread : ∀ i ∈ List.range (ms.length + 1),
      lookupIn w.fs.files (svgFile i) = some (.svg (prefixBoard ms i)) := by
    intro i hi
    rw [hw, lookupIn_append_none (lookupIn_base_ne_svg hbase i)]
    exact lookupIn_pairwise_mem (pairwise_keys_svg _ _) (List.mem_map.mpr ⟨i, hi, rfl⟩)
  have hfresh : ∀ i ∈ List.range (ms.length + 1),
      lookupIn w.fs.files (pngFile i) = none := by
    intro i _
    rw [hw, lookupIn_append_none (lookupIn_base_ne_png hbase i)]
    apply lookupIn_svgEntries_ne
    show png_folder_path ≠ svg_folder_path
    exact fun hc => svg_ne_png_folder hc.symm
  obtain ⟨fs2, hrun, hfiles, hmono⟩ :=
    svgs_to_pngs_loop_spec (List.range (ms.length + 1)) (prefixBoard ms) w
      (List.nodup_range _) hread hfresh
  refine ⟨fs2, ?_, hfiles, hmono⟩
  show svgs_to_pngs_loop (globIn w.fs.files svg_folder_path ".svg") (some png_folder_path) w = _
  rw [hglob]
  exact hrun

/-! ### pngs_to_gif up to the optimization branch -/

theorem pngs_to_gif_reaches_branch (ms : List Move) (base : List (PyPath × Content)) (w : World)
    (gifP : PyPath) (dur : PyVal) (opt : String)
    (hw : w.fs.files = base
        ++ (List.range (ms.length + 1)).map (fun i => (svgFile i, Content.svg (prefixBoard ms i)))
        ++ (List.range (ms.length + 1)).map (fun i => (pngFile i, Content.png (prefixBoard ms i))))
    (hbase : ∀ e ∈ base, temp_path.isPrefixOf e.1.parent = false)
    (hfresh : lookupIn base gifP = none)
    (hgifout : temp_path.isPrefixOf gifP.parent = false) :
    ∃ fs2 : FS,
      fs2.files = w.fs.files ++ [(gifP, Content.gif (frameList ms) dur false)] ∧
      (∀ d, w.fs.DirExists d → fs2.DirExists d) ∧
      fs2.DirExists gifP.parent ∧
      pngs_to_gif png_folder_path gifP dur opt w =
        (if opt = "new" then
          pygifsicle_optimize gifP (some (optPathOf gifP)) { w with fs := fs2 }
        else if opt = "overwrite" then
          pygifsicle_optimize gifP none { w with fs := fs2 }
        else if opt = "none" then
          .ok { w with fs := fs2 } ()
        else
          .err { w with fs := fs2 } (.valueError ("unknown value, optimized=" ++ opt))) := by
  have hglob : globIn w.fs.files png_folder_path ".png" =
      (List.range (ms.length + 1)).map pngFile := by
    rw [hw, globIn_append, globIn_append]
    have h1 : globIn base png_folder_path ".png" = [] := by
      apply globIn_eq_nil
      intro e he
      exact matchesGlob_of_ne_parent (parent_ne_png_of_not_temp (hbase e he))
    have h2 : globIn ((List.range (ms.length + 1)).map
        (fun i => (svgFile i, Content.svg (prefixBoard ms i)))) png_folder_path ".png" = [] := by
      apply globIn_eq_nil
      intro e he
      obtain ⟨i, _, rfl⟩ := List.mem_map.mp he
      apply matchesGlob_of_ne_parent
      show svg_folder_path ≠ png_folder_path
      exact svg_ne_png_folder
    have h3 : globIn ((List.range (ms.length + 1)).map
        (fun i => (pngFile i, Content.png (prefixBoard ms i)))) png_folder_path ".png" =
        ((List.range (ms.length + 1)).map
          (fun i => (pngFile i, Content.png (prefixBoard ms i)))).map (fun e => e.1) := by
      apply globIn_eq_map
      intro e he
      obtain ⟨i, _, rfl⟩ := List.mem_map.mp he
      exact matchesGlob_pngFile i
    rw [h1, h2, h3]
    simp [List.map_map, Function.comp]
  have hsorted : sortKeyed ((List.range (ms.length + 1)).map
      (fun i : Nat => ((i : Int), pngFile i))) =
      (List.range (ms.length + 1)).map (fun i : Nat => ((i : Int), pngFile i)) :=
    sortKeyed_of_pairwise _ (pairwise_le_keys _)
  have hmap2 : (((List.range (ms.length + 1)).map
      (fun i : Nat => ((i : Int), pngFile i))).map (fun e => e.2)) =
      (List.range (ms.length + 1)).map pngFile := by
    simp [List.map_map, Function.comp]
  have hlookpng : ∀ i ∈ List.range (ms.length + 1),
      lookupIn w.fs.files (pngFile i) = some (.png (prefixBoard ms i)) := by
    intro i hi
    rw [hw, lookupIn_append_none, lookupIn_pairwise_mem (pairwise_keys_png _ _)
      (List.mem_map.mpr ⟨i, hi, rfl⟩)]
    rw [lookupIn_append_none (lookupIn_base_ne_png hbase i)]
    apply lookupIn_svgEntries_ne
    show png_folder_path ≠ svg_folder_path
    exact fun hc => svg_ne_png_folder hc.symm
  have hframes : readFrames (w.fs.mkdirParents gifP.parent).files
      ((List.range (ms.length + 1)).map pngFile) = some (frameList ms) := by
    rw [mkdirParents_files]
    exact readFrames_spec _ _ _ hlookpng
  have hpar : (w.fs.mkdirParents gifP.parent).DirExists gifP.parent := by
    cases hp : gifP.parent with
    | nil => exact Or.inl rfl
    | cons a l => exact mkdirParents_DirExists_self (by simp [hp]) _
  have hgiffresh1 : lookupIn (w.fs.mkdirParents gifP.parent).files gifP = none := by
    rw [mkdirParents_files, hw]
    rw [lookupIn_append_none, lookupIn_pngEntries_ne (parent_ne_png_of_not_temp hgifout)]
    rw [lookupIn_append_none hfresh]
    exact lookupIn_svgEntries_ne (parent_ne_svg_of_not_temp hgifout)
  have hwf : (w.fs.mkdirParents gifP.parent).writeFile gifP
      (.gif (frameList ms) dur false) = some { w.fs.mkdirParents gifP.parent with
        files := upsert (w.fs.mkdirParents gifP.parent).files gifP
          (.gif (frameList ms) dur false) } :=
    writeFile_of_DirExists _ hpar
  refine ⟨{ w.fs.mkdirParents gifP.parent with
      files := upsert (w.fs.mkdirParents gifP.parent).files gifP
        (.gif (frameList ms) dur false) }, ?_, ?_, ?_, ?_⟩
  · show upsert (w.fs.mkdirParents gifP.parent).files gifP (.gif (frameList ms) dur false)
        = w.fs.files ++ [(gifP, Content.gif (frameList ms) dur false)]
    rw [upsert_of_none _ hgiffresh1, mkdirParents_files]
  · intro d hd
    exact DirExists_set_files (DirExists_mkdirParents_mono hd _) _
  · exact DirExists_set_files hpar _
  · simp only [pngs_to_gif, hglob, computeKeys_pngFiles, hsorted, hmap2, hframes, hwf]
    rfl

/-! ### pygifsicle and rmtree -/

theorem pygifsicle_new_spec (pre : List (PyPath × Content)) (w2 : World) (gifP : PyPath)
    (F : List Board) (dur : PyVal)
    (hw2 : w2.fs.files = pre ++ [(gifP, Content.gif F dur false)])
    (hpre : lookupIn pre gifP = none)
    (hpreopt : lookupIn pre (optPathOf gifP) = none)
    (hdir : w2.fs.DirExists gifP.parent) :
    ∃ fs3 : FS,
      pygifsicle_optimize gifP (some (optPathOf gifP)) w2 = .ok { w2 with fs := fs3 } () ∧
      fs3.files = pre ++ [(gifP, Content.gif F dur false),
        (optPathOf gifP, Content.gif F dur true)] ∧
      (∀ d, w2.fs.DirExists d → fs3.DirExists d) := by
  have hlook : lookupIn w2.fs.files gifP = some (Content.gif F dur false) := by
    rw [hw2, lookupIn_append_none hpre]
    simp [lookupIn]
  have hdir2 : w2.fs.DirExists (optPathOf gifP).parent := hdir
  have hwf : w2.fs.writeFile (optPathOf gifP) (Content.gif F dur true) =
      some { w2.fs with files := upsert w2.fs.files (optPathOf gifP) (Content.gif F dur true) } :=
    writeFile_of_DirExists _ hdir2
  refine ⟨{ w2.fs with files := upsert w2.fs.files (optPathOf gifP) (Content.gif F dur true) },
    ?_, ?_, ?_⟩
  · simp only [pygifsicle_optimize, hlook, Option.getD_some, hwf]
  · show upsert w2.fs.files (optPathOf gifP) (Content.gif F dur true) = _
    rw [hw2, upsert_append_of_none _ hpreopt]
    congr 1
    show upsert [(gifP, Content.gif F dur false)] (optPathOf gifP) (Content.gif F dur true) = _
    simp [upsert, ne_optPathOf gifP]
  · intro d hd
    exact DirExists_set_files hd _

theorem pygifsicle_overwrite_spec (pre : List (PyPath × Content)) (w2 : World) (gifP : PyPath)
    (F : List Board) (dur : PyVal)
    (hw2 : w2.fs.files = pre ++ [(gifP, Content.gif F dur false)])
    (hpre : lookupIn pre gifP = none)
    (hdir : w2.fs.DirExists gifP.parent) :
    ∃ fs3 : FS,
      pygifsicle_optimize gifP none w2 = .ok { w2 with fs := fs3 } () ∧
      fs3.files = pre ++ [(gifP, Content.gif F dur true)] ∧
      (∀ d, w2.fs.DirExists d → fs3.DirExists d) := by
  have hlook : lookupIn w2.fs.files gifP = some (Content.gif F dur false) := by
    rw [hw2, lookupIn_append_none hpre]
    simp [lookupIn]
  have hwf : w2.fs.writeFile gifP (Content.gif F dur true) =
      some { w2.fs with files := upsert w2.fs.files gifP (Content.gif F dur true) } :=
    writeFile_of_DirExists _ hdir
  refine ⟨{ w2.fs with files := upsert w2.fs.files gifP (Content.gif F dur true) }, ?_, ?_, ?_⟩
  · simp only [pygifsicle_optimize, hlook, Option.getD_none, hwf]
  · show upsert w2.fs.files gifP (Content.gif F dur true) = _
    rw [hw2, upsert_append_of_none _ hpre]
    congr 1
    simp [upsert]
  · intro d hd
    exact DirExists_set_files hd _

theorem rmtree_spec (w : World) (hdir : temp_path ∈ w.fs.dirs) :
    rmtree temp_path w = .ok { w with fs := w.fs.removeTree temp_path } () := by
  simp [rmtree, hdir]

theorem mem_dirs_of_DirExists_temp {fs : FS} (h : fs.DirExists temp_path) :
    temp_path ∈ fs.dirs := by
  rcases h with h | h
  · exact absurd h (by decide)
  · exact h

/-- Filtering the staged temp files out of the fully written file table. -/
theorem filter_staged (baseF outs : List (PyPath × Content)) (ms : List Move) (n : Nat)
    (hclean : ∀ e ∈ baseF, temp_path.isPrefixOf e.1.parent = false)
    (houts : ∀ e ∈ outs, temp_path.isPrefixOf e.1.parent = false) :
    (baseF ++ (List.range n).map (fun i => (svgFile i, Content.svg (prefixBoard ms i)))
        ++ (List.range n).map (fun i => (pngFile i, Content.png (prefixBoard ms i)))
        ++ outs).filter (fun e => ! temp_path.isPrefixOf e.1.parent) = baseF ++ outs := by
  have h1 : baseF.filter (fun e => ! temp_path.isPrefixOf e.1.parent) = baseF := by
    rw [List.filter_eq_self]
    intro e he
    rw [hclean e he]
    rfl
  have h2 : ((List.range n).map (fun i => (svgFile i, Content.svg (prefixBoard ms i)))).filter
      (fun e => ! temp_path.isPrefixOf e.1.parent) = [] := by
    rw [List.filter_eq_nil_iff]
    intro e he
    obtain ⟨i, _, rfl⟩ := List.mem_map.mp he
    show ¬ (! temp_path.isPrefixOf svg_folder_path = true)
    rw [temp_isPrefixOf_svg]
    decide
  have h3 : ((List.range n).map (fun i => (pngFile i, Content.png (prefixBoard ms i)))).filter
      (fun e => ! temp_path.isPrefixOf e.1.parent) = [] := by
    rw [List.filter_eq_nil_iff]
    intro e he
    obtain ⟨i, _, rfl⟩ := List.mem_map.mp he
    show ¬ (! temp_path.isPrefixOf png_folder_path = true)
    rw [temp_isPrefixOf_png]
    decide
  have h4 : outs.filter (fun e => ! temp_path.isPrefixOf e.1.parent) = outs := by
    rw [List.filter_eq_self]
    intro e he
    rw [houts e he]
    rfl
  rw [List.filter_append, List.filter_append, List.filter_append, h1, h2, h3, h4]
  simp

/-! ### The run of main up to the optimization branch -/

theorem main_reaches_branch (readGame : String → Option Game) (pgnP gifP : PyPath)
    (durCli optCli : Option String) (w : World) (pgn : String) (game : Game)
    (hpgn : lookupIn w.fs.files pgnP = some (.text pgn))
    (hparse : readGame pgn = some game)
    (hclean : CleanTemp w)
    (hgiffresh : lookupIn w.fs.files gifP = none)
    (hgifout : temp_path.isPrefixOf gifP.parent = false) :
    ∃ fs4 : FS,
      fs4.files = w.fs.files
        ++ (List.range (game.mainline.length + 1)).map
            (fun i => (svgFile i, Content.svg (prefixBoard game.mainline i)))
        ++ (List.range (game.mainline.length + 1)).map
            (fun i => (pngFile i, Content.png (prefixBoard game.mainline i)))
        ++ [(gifP, Content.gif (frameList game.mainline) (durationVal durCli) false)] ∧
      fs4.DirExists temp_path ∧
      fs4.DirExists gifP.parent ∧
      (optStr optCli = "none" →
        main' readGame pgnP gifP durCli optCli w = rmtree temp_path { w with fs := fs4 }) ∧
      (optStr optCli = "new" → ∀ w5 : World,
        pygifsicle_optimize gifP (some (optPathOf gifP)) { w with fs := fs4 } = .ok w5 () →
        main' readGame pgnP gifP durCli optCli w = rmtree temp_path w5) ∧
      (optStr optCli = "overwrite" → ∀ w5 : World,
        pygifsicle_optimize gifP none { w with fs := fs4 } = .ok w5 () →
        main' readGame pgnP gifP durCli optCli w = rmtree temp_path w5) ∧
      (optStr optCli ≠ "new" → optStr optCli ≠ "overwrite" → optStr optCli ≠ "none" →
        main' readGame pgnP gifP durCli optCli w = .err { w with fs := fs4 }
          (.valueError ("unknown value, optimized=" ++ optStr optCli))) := by
  have hfreshsvg : ∀ k, lookupIn w.fs.files (svgFile k) = none :=
    fun k => lookupIn_base_ne_svg hclean k
  obtain ⟨fs2, hrun2, hfiles2, hmono2, hupTo2⟩ := game_to_svgs_spec game w hfreshsvg
  obtain ⟨fs3, hrun3, hfiles3, hmono3⟩ :=
    svgs_to_pngs_spec game.mainline w.fs.files { w with fs := fs2 } hfiles2 hclean
  have hfiles3' : fs3.files = w.fs.files
      ++ (List.range (game.mainline.length + 1)).map
          (fun i => (svgFile i, Content.svg (prefixBoard game.mainline i)))
      ++ (List.range (game.mainline.length + 1)).map
          (fun i => (pngFile i, Content.png (prefixBoard game.mainline i))) := by
    rw [hfiles3]
    show fs2.files ++ _ = _
    rw [hfiles2]
  obtain ⟨fs4, hfiles4, hmono4, hdir4, hrun4⟩ :=
    pngs_to_gif_reaches_branch game.mainline w.fs.files { w with fs := fs3 } gifP
      (durationVal durCli) (optStr optCli) hfiles3' hclean hgiffresh hgifout
  have hfiles4' : fs4.files = w.fs.files
      ++ (List.range (game.mainline.length + 1)).map
          (fun i => (svgFile i, Content.svg (prefixBoard game.mainline i)))
      ++ (List.range (game.mainline.length + 1)).map
          (fun i => (pngFile i, Content.png (prefixBoard game.mainline i)))
      ++ [(gifP, Content.gif (frameList game.mainline) (durationVal durCli) false)] := by
    rw [hfiles4]
    show fs3.files ++ _ = _
    rw [hfiles3']
  have htemp4 : fs4.DirExists temp_path := by
    apply hmono4
    show fs3.DirExists temp_path
    apply hmono3
    show fs2.DirExists temp_path
    exact hupTo2 temp_path (by decide)
  have hread : read_pgn_file pgnP w = .ok w pgn := by
    simp only [read_pgn_file, FS.lookupFile, hpgn]
  have hrun3' : svgs_to_pngs svg_folder_path (some png_folder_path) { w with fs := fs2 } =
      .ok { w with fs := fs3 } () := hrun3
  have hrun4' : pngs_to_gif png_folder_path gifP (durationVal durCli) (optStr optCli)
      { w with fs := fs3 } =
      (if optStr optCli = "new" then
        pygifsicle_optimize gifP (some (optPathOf gifP)) { w with fs := fs4 }
      else if optStr optCli = "overwrite" then
        pygifsicle_optimize gifP none { w with fs := fs4 }
      else if optStr optCli = "none" then
        .ok { w with fs := fs4 } ()
      else
        .err { w with fs := fs4 }
          (.valueError ("unknown value, optimized=" ++ optStr optCli))) := hrun4
  refine ⟨fs4, hfiles4', htemp4, hdir4, ?_, ?_, ?_, ?_⟩
  · intro hopt
    simp only [main', parse_args, hread, pgn_to_game, hparse, hrun2, hrun3']
    rw [hrun4', hopt, if_neg (by decide), if_neg (by decide), if_pos rfl]
  · intro hopt w5 hw5
    simp only [main', parse_args, hread, pgn_to_game, hparse, hrun2, hrun3']
    rw [hrun4', hopt, if_pos rfl, hw5]
  · intro hopt w5 hw5
    simp only [main', parse_args, hread, pgn_to_game, hparse, hrun2, hrun3']
    rw [hrun4', hopt, if_neg (by decide), if_pos rfl, hw5]
  · intro h1 h2 h3
    simp only [main', parse_args, hread, pgn_to_game, hparse, hrun2, hrun3']
    rw [hrun4', if_neg h1, if_neg h2, if_neg h3]

/-! ### Full-run specifications of main -/

theorem main_ok_spec (readGame : String → Option Game) (pgnP gifP : PyPath)
    (durCli optCli : Option String) (w : World) (pgn : String) (game : Game)
    (hpgn : lookupIn w.fs.files pgnP = some (.text pgn))
    (hparse : readGame pgn = some game)
    (hclean : CleanTemp w)
    (hgiffresh : lookupIn w.fs.files gifP = none)
    (hoptfresh : lookupIn w.fs.files (optPathOf gifP) = none)
    (hgifout : temp_path.isPrefixOf gifP.parent = false)
    (hopt : optStr optCli = "new" ∨ optStr optCli = "overwrite" ∨ optStr optCli = "none") :
    ∃ fs6 : FS,
      main' readGame pgnP gifP durCli optCli w = .ok { w with fs := fs6 } () ∧
      fs6.files = w.fs.files ++
        gifOutputs gifP (frameList game.mainline) (durationVal durCli) (optStr optCli) := by
  obtain ⟨fs4, hfiles4, htemp4, hdir4, hcnone, hcnew, hcover, _⟩ :=
    main_reaches_branch readGame pgnP gifP durCli optCli w pgn game
      hpgn hparse hclean hgiffresh hgifout
  have hpre : lookupIn (w.fs.files
      ++ (List.range (game.mainline.length + 1)).map
          (fun i => (svgFile i, Content.svg (prefixBoard game.mainline i)))
      ++ (List.range (game.mainline.length + 1)).map
          (fun i => (pngFile i, Content.png (prefixBoard game.mainline i)))) gifP = none := by
    have h1 : lookupIn (w.fs.files
        ++ (List.range (game.mainline.length + 1)).map
            (fun i => (svgFile i, Content.svg (prefixBoard game.mainline i)))) gifP = none := by
      rw [lookupIn_append_none hgiffresh]
      exact lookupIn_svgEntries_ne (parent_ne_svg_of_not_temp hgifout)
    rw [lookupIn_append_none h1]
    exact lookupIn_pngEntries_ne (parent_ne_png_of_not_temp hgifout)
  have hpreopt : lookupIn (w.fs.files
      ++ (List.range (game.mainline.length + 1)).map
          (fun i => (svgFile i, Content.svg (prefixBoard game.mainline i)))
      ++ (List.range (game.mainline.length + 1)).map
          (fun i => (pngFile i, Content.png (prefixBoard game.mainline i))))
      (optPathOf gifP) = none := by
    have h1 : lookupIn (w.fs.files
        ++ (List.range (game.mainline.length + 1)).map
            (fun i => (svgFile i, Content.svg (prefixBoard game.mainline i))))
        (optPathOf gifP) = none := by
      rw [lookupIn_append_none hoptfresh]
      exact lookupIn_svgEntries_ne (parent_ne_svg_of_not_temp hgifout)
    rw [lookupIn_append_none h1]
    exact lookupIn_pngEntries_ne (parent_ne_png_of_not_temp hgifout)
  rcases hopt with hopt | hopt | hopt
  · -- optimized = "new": a second optimized copy is written next to the gif
    obtain ⟨fs5, hrun5, hfiles5, hmono5⟩ := pygifsicle_new_spec
      (w.fs.files
        ++ (List.range (game.mainline.length + 1)).map
            (fun i => (svgFile i, Content.svg (prefixBoard game.mainline i)))
        ++ (List.range (game.mainline.length + 1)).map
            (fun i => (pngFile i, Content.png (prefixBoard game.mainline i))))
      { w with fs := fs4 } gifP (frameList game.mainline) (durationVal durCli)
      hfiles4 hpre hpreopt hdir4
    have hmain := hcnew hopt { w with fs := fs5 } hrun5
    have htemp5 : temp_path ∈ fs5.dirs := mem_dirs_of_DirExists_temp (hmono5 temp_path htemp4)
    have houts : ∀ e ∈ [(gifP, Content.gif (frameList game.mainline) (durationVal durCli) false),
        (optPathOf gifP, Content.gif (frameList game.mainline) (durationVal durCli) true)],
        temp_path.isPrefixOf e.1.parent = false := by
      intro e he
      simp only [List.mem_cons, List.mem_singleton] at he
      rcases he with rfl | rfl | he
      · exact hgifout
      · exact hgifout
      · cases he
    refine ⟨fs5.removeTree temp_path, ?_, ?_⟩
    · rw [hmain, rmtree_spec { w with fs := fs5 } htemp5]
    · show fs5.files.filter (fun e => ! temp_path.isPrefixOf e.1.parent) = _
      rw [hfiles5, filter_staged w.fs.files _ game.mainline (game.mainline.length + 1)
        hclean houts, hopt]
      simp [gifOutputs]
  · -- optimized = "overwrite": the gif is optimized in place
    obtain ⟨fs5, hrun5, hfiles5, hmono5⟩ := pygifsicle_overwrite_spec
      (w.fs.files
        ++ (List.range (game.mainline.length + 1)).map
            (fun i => (svgFile i, Content.svg (prefixBoard game.mainline i)))
        ++ (List.range (game.mainline.length + 1)).map
            (fun i => (pngFile i, Content.png (prefixBoard game.mainline i))))
      { w with fs := fs4 } gifP (frameList game.mainline) (durationVal durCli)
      hfiles4 hpre hdir4
    have hmain := hcover hopt { w with fs := fs5 } hrun5
    have htemp5 : temp_path ∈ fs5.dirs := mem_dirs_of_DirExists_temp (hmono5 temp_path htemp4)
    have houts : ∀ e ∈ [(gifP, Content.gif (frameList game.mainline) (durationVal durCli) true)],
        temp_path.isPrefixOf e.1.parent = false := by
      intro e he
      rw [List.mem_singleton] at he
      subst he
      exact hgifout
    refine ⟨fs5.removeTree temp_path, ?_, ?_⟩
    · rw [hmain, rmtree_spec { w with fs := fs5 } htemp5]
    · show fs5.files.filter (fun e => ! temp_path.isPrefixOf e.1.parent) = _
      rw [hfiles5, filter_staged w.fs.files _ game.mainline (game.mainline.length + 1)
        hclean houts, hopt]
      simp [gifOutputs]
  · -- optimized = "none": the gif is left as written
    have hmain := hcnone hopt
    have htemp' : temp_path ∈ fs4.dirs := mem_dirs_of_DirExists_temp htemp4
    have houts : ∀ e ∈ [(gifP, Content.gif (frameList game.mainline) (durationVal durCli) false)],
        temp_path.isPrefixOf e.1.parent = false := by
      intro e he
      rw [List.mem_singleton] at he
      subst he
      exact hgifout
    refine ⟨fs4.removeTree temp_path, ?_, ?_⟩
    · rw [hmain, rmtree_spec { w with fs := fs4 } htemp']
    · show fs4.files.filter (fun e => ! temp_path.isPrefixOf e.1.parent) = _
      rw [hfiles4, filter_staged w.fs.files _ game.mainline (game.mainline.length + 1)
        hclean houts, hopt]
      simp [gifOutputs]

theorem main_err_spec (readGame : String → Option Game) (pgnP gifP : PyPath)
    (durCli optCli : Option String) (w : World) (pgn : String) (game : Game)
    (hpgn : lookupIn w.fs.files pgnP = some (.text pgn))
    (hparse : readGame pgn = some game)
    (hclean : CleanTemp w)
    (hgiffresh : lookupIn w.fs.files gifP = none)
    (hgifout : temp_path.isPrefixOf gifP.parent = false)
    (hbad1 : optStr optCli ≠ "new") (hbad2 : optStr optCli ≠ "overwrite")
    (hbad3 : optStr optCli ≠ "none") :
    ∃ fs4 : FS,
      main' readGame pgnP gifP durCli optCli w = .err { w with fs := fs4 }
        (.valueError ("unknown value, optimized=" ++ optStr optCli)) ∧
      fs4.files = w.fs.files
        ++ (List.range (game.mainline.length + 1)).map
            (fun i => (svgFile i, Content.svg (prefixBoard game.mainline i)))
        ++ (List.range (game.mainline.length + 1)).map
            (fun i => (pngFile i, Content.png (prefixBoard game.mainline i)))
        ++ [(gifP, Content.gif (frameList game.mainline) (durationVal durCli) false)] := by
  obtain ⟨fs4, hfiles4, _, _, _, _, _, hbadc⟩ :=
    main_reaches_branch readGame pgnP gifP durCli optCli w pgn game
      hpgn hparse hclean hgiffresh hgifout
  exact ⟨fs4, hbadc hbad1 hbad2 hbad3, hfiles4⟩

/-! ### Frames, replay and the remaining paths of main -/

theorem boardChain_head (b : Board) (ms : List Move) :
    ∃ t, boardChain b ms = b :: t := by
  cases ms with
  | nil => exact ⟨[], rfl⟩
  | cons m rest => exact ⟨boardChain (b.push m) rest, rfl⟩

theorem replay_boardChain : ∀ (ms : List Move) (b : Board), replay (boardChain b ms) = ms := by
  intro ms
  induction ms with
  | nil => intro b; rfl
  | cons m rest ih =>
    intro b
    obtain ⟨t, ht⟩ := boardChain_head (b.push m) rest
    show replay (b :: boardChain (b.push m) rest) = m :: rest
    rw [ht]
    show (b.push m).pushed.drop b.pushed.length ++ replay ((b.push m) :: t) = m :: rest
    rw [← ht, ih (b.push m)]
    show (b.pushed ++ [m]).drop b.pushed.length ++ rest = m :: rest
    rw [List.drop_left]
    rfl

theorem boardChain_eq : ∀ (ms : List Move) (pref : List Move),
    boardChain ⟨pref⟩ ms =
      (List.range (ms.length + 1)).map (fun i => (⟨pref ++ ms.take i⟩ : Board)) := by
  intro ms
  induction ms with
  | nil =>
    intro pref
    simp [boardChain]
  | cons m rest ih =>
    intro pref
    show (⟨pref⟩ : Board) :: boardChain ((⟨pref⟩ : Board).push m) rest = _
    rw [show (⟨pref⟩ : Board).push m = (⟨pref ++ [m]⟩ : Board) from rfl, ih (pref ++ [m])]
    conv_rhs => rw [List.length_cons, List.range_succ_eq_map, List.map_cons, List.map_map]
    congr 1
    · simp
    · apply List.map_congr_left
      intro j _
      show (⟨(pref ++ [m]) ++ rest.take j⟩ : Board)
          = (⟨pref ++ (m :: rest).take (Nat.succ j)⟩ : Board)
      rw [List.take_succ_cons]
      simp

theorem frameList_eq_chain (ms : List Move) : frameList ms = boardChain ⟨[]⟩ ms := by
  rw [boardChain_eq ms []]
  apply List.map_congr_left
  intro i _
  show prefixBoard ms i = (⟨[] ++ ms.take i⟩ : Board)
  simp [prefixBoard]

theorem replay_frameList (ms : List Move) : replay (frameList ms) = ms := by
  rw [frameList_eq_chain]
  exact replay_boardChain ms ⟨[]⟩

theorem frameList_length (ms : List Move) : (frameList ms).length = ms.length + 1 := by
  simp [frameList]

theorem main_no_game_spec (readGame : String → Option Game) (pgnP gifP : PyPath)
    (durCli optCli : Option String) (w : World) (pgn : String)
    (hpgn : lookupIn w.fs.files pgnP = some (.text pgn))
    (hparse : readGame pgn = none) :
    main' readGame pgnP gifP durCli optCli w =
      .ok ⟨w.fs, w.stdout ++ ["Cannot parse pgn file"]⟩ () := by
  have hread : read_pgn_file pgnP w = .ok w pgn := by
    simp only [read_pgn_file, FS.lookupFile, hpgn]
  simp only [main', parse_args, hread, pgn_to_game, hparse]

theorem main_missing_pgn_spec (readGame : String → Option Game) (pgnP gifP : PyPath)
    (durCli optCli : Option String) (w : World)
    (hmiss : lookupIn w.fs.files pgnP = none) :
    main' readGame pgnP gifP durCli optCli w =
      .err w (.fileNotFoundError "No such file or directory") := by
  have hread : read_pgn_file pgnP w =
      .err w (.fileNotFoundError "No such file or directory") := by
    simp only [read_pgn_file, FS.lookupFile, hmiss]
  simp only [main', parse_args, hread]

/-! ### gifOutputs helpers -/

theorem gifOutputs_new (g : PyPath) (F : List Board) (D : PyVal) :
    gifOutputs g F D "new" = [(g, .gif F D false), (optPathOf g, .gif F D true)] := by
  unfold gifOutputs
  rw [if_pos rfl]

theorem gifOutputs_overwrite (g : PyPath) (F : List Board) (D : PyVal) :
    gifOutputs g F D "overwrite" = [(g, .gif F D true)] := by
  unfold gifOutputs
  rw [if_neg (by decide), if_pos rfl]

theorem gifOutputs_none_opt (g : PyPath) (F : List Board) (D : PyVal) :
    gifOutputs g F D "none" = [(g, .gif F D false)] := by
  unfold gifOutputs
  rw [if_neg (by decide), if_neg (by decide)]

theorem gifOutputs_parent (g : PyPath) (F : List Board) (D : PyVal) (opt : String) :
    ∀ e ∈ gifOutputs g F D opt, e.1.parent = g.parent := by
  intro e he
  unfold gifOutputs at he
  by_cases h1 : opt = "new"
  · rw [if_pos h1] at he
    simp only [List.mem_cons, List.not_mem_nil] at he
    rcases he with rfl | rfl | he
    · rfl
    · rfl
    · cases he
  · rw [if_neg h1] at he
    by_cases h2 : opt = "overwrite"
    · rw [if_pos h2] at he
      rw [List.mem_singleton] at he
      subst he
      rfl
    · rw [if_neg h2] at he
      rw [List.mem_singleton] at he
      subst he
      rfl

theorem lookupIn_gifOutputs_self (g : PyPath) (F : List Board) (D : PyVal) (opt : String) :
    ∃ flag : Bool, lookupIn (gifOutputs g F D opt) g = some (.gif F D flag) := by
  unfold gifOutputs
  by_cases h1 : opt = "new"
  · rw [if_pos h1]
    exact ⟨false, by simp [lookupIn]⟩
  · rw [if_neg h1]
    by_cases h2 : opt = "overwrite"
    · rw [if_pos h2]
      exact ⟨true, by simp [lookupIn]⟩
    · rw [if_neg h2]
      exact ⟨false, by simp [lookupIn]⟩

/-! ### The claims -/

/-- C1: for a parsed game with N mainline moves the rendering stage stages
exactly N+1 svg position renderings (one per prefix of the move sequence,
stems 0..N), and a successful run writes an animation whose frame sequence has
exactly N+1 frames. -/
theorem claim_C1_frame_counts (readGame : String → Option Game) (pgnP gifP : PyPath)
    (durCli optCli : Option String) (w : World) (pgn : String) (game : Game)
    (hpgn : lookupIn w.fs.files pgnP = some (.text pgn))
    (hparse : readGame pgn = some game)
    (hclean : CleanTemp w)
    (hgiffresh : lookupIn w.fs.files gifP = none)
    (hoptfresh : lookupIn w.fs.files (optPathOf gifP) = none)
    (hgifout : temp_path.isPrefixOf gifP.parent = false)
    (hopt : optStr optCli = "new" ∨ optStr optCli = "overwrite" ∨ optStr optCli = "none") :
    (∃ fs2 : FS, game_to_svgs game svg_folder_path w = .ok { w with fs := fs2 } () ∧
      (globIn fs2.files svg_folder_path ".svg").length = game.mainline.length + 1) ∧
    (∃ (fs6 : FS) (flag : Bool),
      main' readGame pgnP gifP durCli optCli w = .ok { w with fs := fs6 } () ∧
      lookupIn fs6.files gifP =
        some (.gif (frameList game.mainline) (durationVal durCli) flag) ∧
      (frameList game.mainline).length = game.mainline.length + 1) := by
  constructor
  · obtain ⟨fs2, hrun2, hfiles2, _, _⟩ :=
      game_to_svgs_spec game w (fun k => lookupIn_base_ne_svg hclean k)
    refine ⟨fs2, hrun2, ?_⟩
    rw [hfiles2, globIn_append]
    have h1 : globIn w.fs.files svg_folder_path ".svg" = [] := by
      apply globIn_eq_nil
      intro e he
      exact matchesGlob_of_ne_parent (parent_ne_svg_of_not_temp (hclean e he))
    have h2 : globIn ((List.range (game.mainline.length + 1)).map
        (fun i => (svgFile i, Content.svg (prefixBoard game.mainline i))))
        svg_folder_path ".svg" =
        ((List.range (game.mainline.length + 1)).map
          (fun i => (svgFile i, Content.svg (prefixBoard game.mainline i)))).map
          (fun e => e.1) := by
      apply globIn_eq_map
      intro e he
      obtain ⟨i, _, rfl⟩ := List.mem_map.mp he
      exact matchesGlob_svgFile i
    rw [h1, h2]
    simp
  · obtain ⟨fs6, hrun6, hfiles6⟩ := main_ok_spec readGame pgnP gifP durCli optCli w pgn game
      hpgn hparse hclean hgiffresh hoptfresh hgifout hopt
    obtain ⟨flag, hflag⟩ := lookupIn_gifOutputs_self gifP (frameList game.mainline)
      (durationVal durCli) (optStr optCli)
    refine ⟨fs6, flag, hrun6, ?_, frameList_length _⟩
    rw [hfiles6, lookupIn_append_none hgiffresh, hflag]

/-- C2: in a successful run the written animation's frames are exactly the
boards after the first 0, 1, ..., N mainline moves in move order (frame i is
the position after i moves), and replaying consecutive frames reconstructs the
input move sequence. -/
theorem claim_C2_frames_in_move_order (readGame : String → Option Game) (pgnP gifP : PyPath)
    (durCli optCli : Option String) (w : World) (pgn : String) (game : Game)
    (hpgn : lookupIn w.fs.files pgnP = some (.text pgn))
    (hparse : readGame pgn = some game)
    (hclean : CleanTemp w)
    (hgiffresh : lookupIn w.fs.files gifP = none)
    (hoptfresh : lookupIn w.fs.files (optPathOf gifP) = none)
    (hgifout : temp_path.isPrefixOf gifP.parent = false)
    (hopt : optStr optCli = "new" ∨ optStr optCli = "overwrite" ∨ optStr optCli = "none") :
    ∃ (fs6 : FS) (flag : Bool),
      main' readGame pgnP gifP durCli optCli w = .ok { w with fs := fs6 } () ∧
      lookupIn fs6.files gifP =
        some (.gif (frameList game.mainline) (durationVal durCli) flag) ∧
      frameList game.mainline =
        (List.range (game.mainline.length + 1)).map (prefixBoard game.mainline) ∧
      replay (frameList game.mainline) = game.mainline := by
  obtain ⟨fs6, hrun6, hfiles6⟩ := main_ok_spec readGame pgnP gifP durCli optCli w pgn game
    hpgn hparse hclean hgiffresh hoptfresh hgifout hopt
  obtain ⟨flag, hflag⟩ := lookupIn_gifOutputs_self gifP (frameList game.mainline)
    (durationVal durCli) (optStr optCli)
  refine ⟨fs6, flag, hrun6, ?_, rfl, replay_frameList _⟩
  rw [hfiles6, lookupIn_append_none hgiffresh, hflag]

/-- C3: when no game can be parsed from the notation file, main prints the
diagnostic "Cannot parse pgn file" and returns normally, leaving the
filesystem untouched, so no output animation file is produced. -/
theorem claim_C3_no_game_clean_exit (readGame : String → Option Game) (pgnP gifP : PyPath)
    (durCli optCli : Option String) (w : World) (pgn : String)
    (hpgn : lookupIn w.fs.files pgnP = some (.text pgn))
    (hparse : readGame pgn = none) :
    main' readGame pgnP gifP durCli optCli w =
      .ok ⟨w.fs, w.stdout ++ ["Cannot parse pgn file"]⟩ () ∧
    (worldOf (main' readGame pgnP gifP durCli optCli w)).fs = w.fs := by
  have h := main_no_game_spec readGame pgnP gifP durCli optCli w pgn hpgn hparse
  refine ⟨h, ?_⟩
  rw [h]
  rfl

/-- C4: optimized="new" writes a second output whose name is the original stem
with "_optimized" appended (two output files); "overwrite" optimizes the single
output in place; "none" leaves the single output unmodified; any other value
raises ValueError. -/
theorem claim_C4_optimized_options (readGame : String → Option Game) (pgnP gifP : PyPath)
    (durCli optCli : Option String) (w : World) (pgn : String) (game : Game)
    (hpgn : lookupIn w.fs.files pgnP = some (.text pgn))
    (hparse : readGame pgn = some game)
    (hclean : CleanTemp w)
    (hgiffresh : lookupIn w.fs.files gifP = none)
    (hoptfresh : lookupIn w.fs.files (optPathOf gifP) = none)
    (hgifout : temp_path.isPrefixOf gifP.parent = false) :
    (optStr optCli = "new" → ∃ fs6 : FS,
      main' readGame pgnP gifP durCli optCli w = .ok { w with fs := fs6 } () ∧
      lookupIn fs6.files gifP =
        some (.gif (frameList game.mainline) (durationVal durCli) false) ∧
      lookupIn fs6.files (optPathOf gifP) =
        some (.gif (frameList game.mainline) (durationVal durCli) true)) ∧
    (optStr optCli = "overwrite" → ∃ fs6 : FS,
      main' readGame pgnP gifP durCli optCli w = .ok { w with fs := fs6 } () ∧
      lookupIn fs6.files gifP =
        some (.gif (frameList game.mainline) (durationVal durCli) true) ∧
      lookupIn fs6.files (optPathOf gifP) = none) ∧
    (optStr optCli = "none" → ∃ fs6 : FS,
      main' readGame pgnP gifP durCli optCli w = .ok { w with fs := fs6 } () ∧
      lookupIn fs6.files gifP =
        some (.gif (frameList game.mainline) (durationVal durCli) false) ∧
      lookupIn fs6.files (optPathOf gifP) = none) ∧
    (optStr optCli ≠ "new" → optStr optCli ≠ "overwrite" → optStr optCli ≠ "none" →
      ∃ fs4 : FS, main' readGame pgnP gifP durCli optCli w = .err { w with fs := fs4 }
        (.valueError ("unknown value, optimized=" ++ optStr optCli))) := by
  refine ⟨?_, ?_, ?_, ?_⟩
  · intro hopt
    obtain ⟨fs6, hrun6, hfiles6⟩ := main_ok_spec readGame pgnP gifP durCli optCli w pgn game
      hpgn hparse hclean hgiffresh hoptfresh hgifout (Or.inl hopt)
    refine ⟨fs6, hrun6, ?_, ?_⟩
    · rw [hfiles6, hopt, gifOutputs_new, lookupIn_append_none hgiffresh]
      simp [lookupIn]
    · rw [hfiles6, hopt, gifOutputs_new, lookupIn_append_none hoptfresh]
      simp [lookupIn, ne_optPathOf gifP]
  · intro hopt
    obtain ⟨fs6, hrun6, hfiles6⟩ := main_ok_spec readGame pgnP gifP durCli optCli w pgn game
      hpgn hparse hclean hgiffresh hoptfresh hgifout (Or.inr (Or.inl hopt))
    refine ⟨fs6, hrun6, ?_, ?_⟩
    · rw [hfiles6, hopt, gifOutputs_overwrite, lookupIn_append_none hgiffresh]
      simp [lookupIn]
    · rw [hfiles6, hopt, gifOutputs_overwrite, lookupIn_append_none hoptfresh]
      simp [lookupIn, ne_optPathOf gifP]
  · intro hopt
    obtain ⟨fs6, hrun6, hfiles6⟩ := main_ok_spec readGame pgnP gifP durCli optCli w pgn game
      hpgn hparse hclean hgiffresh hoptfresh hgifout (Or.inr (Or.inr hopt))
    refine ⟨fs6, hrun6, ?_, ?_⟩
    · rw [hfiles6, hopt, gifOutputs_none_opt, lookupIn_append_none hgiffresh]
      simp [lookupIn]
    · rw [hfiles6, hopt, gifOutputs_none_opt, lookupIn_append_none hoptfresh]
      simp [lookupIn, ne_optPathOf gifP]
  · intro h1 h2 h3
    obtain ⟨fs4, herr, _⟩ := main_err_spec readGame pgnP gifP durCli optCli w pgn game
      hpgn hparse hclean hgiffresh hgifout h1 h2 h3
    exact ⟨fs4, herr⟩

/-- C5 counterexample: with optimized value "bad" on the one-move example the
run first writes the complete output animation and only then raises the
ValueError: the final world of the failed run already holds the finished gif,
refuting the claim that the configuration error is raised before any rendering
work or before the output is finalized. -/
theorem claim_C5_counterexample :
    errOf (main' demoReadGame demoPgnPath demoGifPath none (some "bad") demoWorld) =
      some (.valueError "unknown value, optimized=bad") ∧
    lookupIn (worldOf (main' demoReadGame demoPgnPath demoGifPath none (some "bad")
      demoWorld)).fs.files demoGifPath =
      some (.gif [⟨[]⟩, ⟨[5]⟩] (.int 1) false) := by
  constructor
  · decide
  · decide

/-- C5 (amended): with an invalid optimized value the ValueError is raised only
after all rendering work and after the output animation has been completely
written: the failing run ends with the finished gif on disk. -/
theorem claim_C5_amended_error_after_output (readGame : String → Option Game)
    (pgnP gifP : PyPath) (durCli optCli : Option String) (w : World) (pgn : String)
    (game : Game)
    (hpgn : lookupIn w.fs.files pgnP = some (.text pgn))
    (hparse : readGame pgn = some game)
    (hclean : CleanTemp w)
    (hgiffresh : lookupIn w.fs.files gifP = none)
    (hgifout : temp_path.isPrefixOf gifP.parent = false)
    (h1 : optStr optCli ≠ "new") (h2 : optStr optCli ≠ "overwrite")
    (h3 : optStr optCli ≠ "none") :
    ∃ fs4 : FS,
      main' readGame pgnP gifP durCli optCli w = .err { w with fs := fs4 }
        (.valueError ("unknown value, optimized=" ++ optStr optCli)) ∧
      lookupIn fs4.files gifP =
        some (.gif (frameList game.mainline) (durationVal durCli) false) := by
  obtain ⟨fs4, herr, hfiles⟩ := main_err_spec readGame pgnP gifP durCli optCli w pgn game
    hpgn hparse hclean hgiffresh hgifout h1 h2 h3
  refine ⟨fs4, herr, ?_⟩
  rw [hfiles]
  have hA : lookupIn (w.fs.files
      ++ (List.range (game.mainline.length + 1)).map
          (fun i => (svgFile i, Content.svg (prefixBoard game.mainline i)))) gifP = none := by
    rw [lookupIn_append_none hgiffresh]
    exact lookupIn_svgEntries_ne (parent_ne_svg_of_not_temp hgifout)
  have hB : lookupIn (w.fs.files
      ++ (List.range (game.mainline.length + 1)).map
          (fun i => (svgFile i, Content.svg (prefixBoard game.mainline i)))
      ++ (List.range (game.mainline.length + 1)).map
          (fun i => (pngFile i, Content.png (prefixBoard game.mainline i)))) gifP = none := by
    rw [lookupIn_append_none hA]
    exact lookupIn_pngEntries_ne (parent_ne_png_of_not_temp hgifout)
  rw [lookupIn_append_none hB]
  simp [lookupIn]

/-- C6 counterexample: a run that fails in the optimization branch (invalid
optimized value "bogus") terminates with the staged temporary svg rendering
still on disk: the temporary directory is not removed on this failing exit
path. -/
theorem claim_C6_counterexample :
    errOf (main' demoReadGame demoPgnPath demoGifPath none (some "bogus") demoWorld) =
      some (.valueError "unknown value, optimized=bogus") ∧
    lookupIn (worldOf (main' demoReadGame demoPgnPath demoGifPath none (some "bogus")
      demoWorld)).fs.files (svgFile 0) = some (.svg ⟨[]⟩) := by
  constructor
  · decide
  · decide

/-- C6 (amended): the temporary working directory is removed only on the fully
successful path: a successful run leaves no file under temp, while a run that
fails after rendering (invalid optimized value) leaves the staged temporary
files on disk. -/
theorem claim_C6_amended_cleanup (readGame : String → Option Game) (pgnP gifP : PyPath)
    (durCli optCli : Option String) (w : World) (pgn : String) (game : Game)
    (hpgn : lookupIn w.fs.files pgnP = some (.text pgn))
    (hparse : readGame pgn = some game)
    (hclean : CleanTemp w)
    (hgiffresh : lookupIn w.fs.files gifP = none)
    (hoptfresh : lookupIn w.fs.files (optPathOf gifP) = none)
    (hgifout : temp_path.isPrefixOf gifP.parent = false) :
    ((optStr optCli = "new" ∨ optStr optCli = "overwrite" ∨ optStr optCli = "none") →
      ∃ fs6 : FS, main' readGame pgnP gifP durCli optCli w = .ok { w with fs := fs6 } () ∧
        CleanTemp { w with fs := fs6 }) ∧
    (optStr optCli ≠ "new" → optStr optCli ≠ "overwrite" → optStr optCli ≠ "none" →
      ∃ fs4 : FS, main' readGame pgnP gifP durCli optCli w = .err { w with fs := fs4 }
          (.valueError ("unknown value, optimized=" ++ optStr optCli)) ∧
        (svgFile 0, Content.svg ⟨[]⟩) ∈ fs4.files) := by
  constructor
  · intro hopt
    obtain ⟨fs6, hrun, hfiles⟩ := main_ok_spec readGame pgnP gifP durCli optCli w pgn game
      hpgn hparse hclean hgiffresh hoptfresh hgifout hopt
    refine ⟨fs6, hrun, ?_⟩
    intro e he
    have he' : e ∈ w.fs.files ++
        gifOutputs gifP (frameList game.mainline) (durationVal durCli) (optStr optCli) :=
      hfiles ▸ he
    rcases List.mem_append.mp he' with h | h
    · exact hclean e h
    · have hp := gifOutputs_parent gifP _ _ _ e h
      show temp_path.isPrefixOf e.1.parent = false
      rw [hp]
      exact hgifout
  · intro h1 h2 h3
    obtain ⟨fs4, herr, hfiles⟩ := main_err_spec readGame pgnP gifP durCli optCli w pgn game
      hpgn hparse hclean hgiffresh hgifout h1 h2 h3
    refine ⟨fs4, herr, ?_⟩
    rw [hfiles]
    apply List.mem_append_left
    apply List.mem_append_left
    apply List.mem_append_right
    exact List.mem_map.mpr ⟨0, List.mem_range.mpr (by omega), rfl⟩

/-- C7: when the duration option is absent argparse yields the default 1 (the
int), and the duration value argparse yields is passed through unchanged to
the animation writer as the per-frame display time recorded in the gif. -/
theorem claim_C7_duration_default_passthrough (readGame : String → Option Game)
    (pgnP gifP : PyPath) (durCli optCli : Option String) (w : World) (pgn : String)
    (game : Game)
    (hpgn : lookupIn w.fs.files pgnP = some (.text pgn))
    (hparse : readGame pgn = some game)
    (hclean : CleanTemp w)
    (hgiffresh : lookupIn w.fs.files gifP = none)
    (hoptfresh : lookupIn w.fs.files (optPathOf gifP) = none)
    (hgifout : temp_path.isPrefixOf gifP.parent = false)
    (hopt : optStr optCli = "new" ∨ optStr optCli = "overwrite" ∨ optStr optCli = "none") :
    (parse_args pgnP gifP none optCli).duration = PyVal.int 1 ∧
    (parse_args pgnP gifP durCli optCli).duration = durationVal durCli ∧
    (∃ (fs6 : FS) (flag : Bool),
      main' readGame pgnP gifP durCli optCli w = .ok { w with fs := fs6 } () ∧
      lookupIn fs6.files gifP =
        some (.gif (frameList game.mainline) (durationVal durCli) flag)) := by
  refine ⟨rfl, rfl, ?_⟩
  obtain ⟨fs6, hrun6, hfiles6⟩ := main_ok_spec readGame pgnP gifP durCli optCli w pgn game
    hpgn hparse hclean hgiffresh hoptfresh hgifout hopt
  obtain ⟨flag, hflag⟩ := lookupIn_gifOutputs_self gifP (frameList game.mainline)
    (durationVal durCli) (optStr optCli)
  refine ⟨fs6, flag, hrun6, ?_⟩
  rw [hfiles6, lookupIn_append_none hgiffresh, hflag]

/-- C8: a missing notation file makes the underlying read raise, and main
propagates exactly that error to the caller with the world unchanged: no
retry, no recovery, no swallowed error. -/
theorem claim_C8_io_error_propagates (readGame : String → Option Game) (pgnP gifP : PyPath)
    (durCli optCli : Option String) (w : World)
    (hmiss : lookupIn w.fs.files pgnP = none) :
    main' readGame pgnP gifP durCli optCli w =
      .err w (.fileNotFoundError "No such file or directory") ∧
    read_pgn_file pgnP w = .err w (.fileNotFoundError "No such file or directory") := by
  refine ⟨main_missing_pgn_spec readGame pgnP gifP durCli optCli w hmiss, ?_⟩
  simp only [read_pgn_file, FS.lookupFile, hmiss]

/-- C9: assembling the animation requires every png stem of the staging folder
to be a decimal integer - a stem int() cannot parse makes pngs_to_gif raise
ValueError - and on the staging contents the rendering stages produce (stems
0..n-1) the key computation never fails and the sorted frame order is strictly
ascending by frame index. -/
theorem claim_C9_integer_stem_sort :
    (∀ (pngFolderP : List String) (gifP : PyPath) (dur : PyVal) (opt : String) (w : World),
      computeKeys (globIn w.fs.files pngFolderP ".png") = none →
      pngs_to_gif pngFolderP gifP dur opt w =
        .err w (.valueError "invalid literal for int with base 10")) ∧
    (∀ n : Nat,
      computeKeys ((List.range n).map pngFile) =
        some ((List.range n).map (fun i : Nat => ((i : Int), pngFile i))) ∧
      sortKeyed ((List.range n).map (fun i : Nat => ((i : Int), pngFile i))) =
        (List.range n).map (fun i : Nat => ((i : Int), pngFile i)) ∧
      ((sortKeyed ((List.range n).map (fun i : Nat => ((i : Int), pngFile i)))).map
        (fun e => e.1)).Pairwise (fun a b : Int => a < b)) := by
  constructor
  · intro pngFolderP gifP dur opt w h
    simp only [pngs_to_gif, h]
  · intro n
    refine ⟨computeKeys_pngFiles _, sortKeyed_of_pairwise _ (pairwise_le_keys _), ?_⟩
    rw [sortKeyed_of_pairwise _ (pairwise_le_keys _), List.map_map]
    refine (List.pairwise_lt_range n).map _ ?_
    intro a b hab
    show (a : Int) < (b : Int)
    exact_mod_cast hab

/-- C10: each write site first creates the target file's parent directories
(parents=True, exist_ok=True): save_svg always succeeds whatever directories
exist; svg_to_png succeeds whenever the source svg is readable; pngs_to_gif
(with optimization "none") succeeds on a well-staged folder even when the
output directory does not yet exist. In each case the write lands and the
parent directory exists afterwards, so a non-existent output directory alone
never causes a failure. -/
theorem claim_C10_mkdir_before_writes :
    (∀ (c : Content) (path : PyPath) (w : World),
      ∃ fs2 : FS, save_svg c path w = .ok { w with fs := fs2 } () ∧
        fs2.DirExists path.parent ∧ lookupIn fs2.files path = some c) ∧
    (∀ (svgPath pngPath : PyPath) (b : Board) (w : World),
      lookupIn w.fs.files svgPath = some (.svg b) →
      ∃ fs2 : FS, svg_to_png svgPath (some pngPath) w = .ok { w with fs := fs2 } () ∧
        fs2.DirExists pngPath.parent ∧ lookupIn fs2.files pngPath = some (.png b)) ∧
    (∀ (ms : List Move) (base : List (PyPath × Content)) (w : World) (gifP : PyPath)
        (dur : PyVal),
      w.fs.files = base
        ++ (List.range (ms.length + 1)).map
            (fun i => (svgFile i, Content.svg (prefixBoard ms i)))
        ++ (List.range (ms.length + 1)).map
            (fun i => (pngFile i, Content.png (prefixBoard ms i))) →
      (∀ e ∈ base, temp_path.isPrefixOf e.1.parent = false) →
      lookupIn base gifP = none →
      temp_path.isPrefixOf gifP.parent = false →
      ∃ fs2 : FS,
        pngs_to_gif png_folder_path gifP dur "none" w = .ok { w with fs := fs2 } () ∧
        fs2.DirExists gifP.parent ∧
        lookupIn fs2.files gifP = some (.gif (frameList ms) dur false)) := by
  refine ⟨?_, ?_, ?_⟩
  · intro c path w
    obtain ⟨fs2, hrun, hfiles, _, _, hdir⟩ := save_svg_spec c path w
    refine ⟨fs2, hrun, hdir, ?_⟩
    rw [hfiles]
    exact lookupIn_upsert_self _ _ _
  · intro svgPath pngPath b w hsvg
    obtain ⟨fs2, hrun, hfiles, _, hdir⟩ := svg_to_png_spec svgPath pngPath w hsvg
    refine ⟨fs2, hrun, hdir, ?_⟩
    rw [hfiles]
    exact lookupIn_upsert_self _ _ _
  · intro ms base w gifP dur hw hbase hfresh hgifout
    obtain ⟨fs2, hfiles, _, hdir, hrun⟩ :=
      pngs_to_gif_reaches_branch ms base w gifP dur "none" hw hbase hfresh hgifout
    refine ⟨fs2, ?_, hdir, ?_⟩
    · rw [hrun, if_neg (by decide), if_neg (by decide), if_pos rfl]
    · rw [hfiles]
      have hA : lookupIn (base
          ++ (List.range (ms.length + 1)).map
              (fun i => (svgFile i, Content.svg (prefixBoard ms i)))) gifP = none := by
        rw [lookupIn_append_none hfresh]
        exact lookupIn_svgEntries_ne (parent_ne_svg_of_not_temp hgifout)
      have hB : lookupIn w.fs.files gifP = none := by
        rw [hw, lookupIn_append_none hA]
        exact lookupIn_pngEntries_ne (parent_ne_png_of_not_temp hgifout)
      rw [lookupIn_append_none hB]
      simp [lookupIn]

/-! ### Witnesses: the claims applied to concrete runs -/

/-- Witness for C1 at the one-move example game. -/
theorem claim_C1_frame_counts_witness :
    (∃ fs2 : FS, game_to_svgs demoGame svg_folder_path demoWorld =
        .ok { demoWorld with fs := fs2 } () ∧
      (globIn fs2.files svg_folder_path ".svg").length = demoGame.mainline.length + 1) ∧
    (∃ (fs6 : FS) (flag : Bool),
      main' demoReadGame demoPgnPath demoGifPath none none demoWorld =
        .ok { demoWorld with fs := fs6 } () ∧
      lookupIn fs6.files demoGifPath =
        some (.gif (frameList demoGame.mainline) (durationVal none) flag) ∧
      (frameList demoGame.mainline).length = demoGame.mainline.length + 1) :=
  claim_C1_frame_counts demoReadGame demoPgnPath demoGifPath none none demoWorld "1. e4"
    demoGame (by decide) (by decide) (by decide) (by decide) (by decide) (by decide)
    (Or.inl rfl)

/-- Witness for C2 at the one-move example game. -/
theorem claim_C2_frames_in_move_order_witness :
    ∃ (fs6 : FS) (flag : Bool),
      main' demoReadGame demoPgnPath demoGifPath none none demoWorld =
        .ok { demoWorld with fs := fs6 } () ∧
      lookupIn fs6.files demoGifPath =
        some (.gif (frameList demoGame.mainline) (durationVal none) flag) ∧
      frameList demoGame.mainline =
        (List.range (demoGame.mainline.length + 1)).map (prefixBoard demoGame.mainline) ∧
      replay (frameList demoGame.mainline) = demoGame.mainline :=
  claim_C2_frames_in_move_order demoReadGame demoPgnPath demoGifPath none none demoWorld
    "1. e4" demoGame (by decide) (by decide) (by decide) (by decide) (by decide) (by decide)
    (Or.inl rfl)

/-- Witness for C3 on an unparseable notation file. -/
theorem claim_C3_no_game_clean_exit_witness :
    main' demoReadGame demoPgnPath demoGifPath none none demoBadWorld =
      .ok ⟨demoBadWorld.fs, demoBadWorld.stdout ++ ["Cannot parse pgn file"]⟩ () ∧
    (worldOf (main' demoReadGame demoPgnPath demoGifPath none none demoBadWorld)).fs =
      demoBadWorld.fs :=
  claim_C3_no_game_clean_exit demoReadGame demoPgnPath demoGifPath none none demoBadWorld
    "not a game" (by decide) (by decide)

/-- Witness for C4 at the one-move example game. -/
theorem claim_C4_optimized_options_witness :
    (optStr none = "new" → ∃ fs6 : FS,
      main' demoReadGame demoPgnPath demoGifPath none none demoWorld =
        .ok { demoWorld with fs := fs6 } () ∧
      lookupIn fs6.files demoGifPath =
        some (.gif (frameList demoGame.mainline) (durationVal none) false) ∧
      lookupIn fs6.files (optPathOf demoGifPath) =
        some (.gif (frameList demoGame.mainline) (durationVal none) true)) ∧
    (optStr none = "overwrite" → ∃ fs6 : FS,
      main' demoReadGame demoPgnPath demoGifPath none none demoWorld =
        .ok { demoWorld with fs := fs6 } () ∧
      lookupIn fs6.files demoGifPath =
        some (.gif (frameList demoGame.mainline) (durationVal none) true) ∧
      lookupIn fs6.files (optPathOf demoGifPath) = none) ∧
    (optStr none = "none" → ∃ fs6 : FS,
      main' demoReadGame demoPgnPath demoGifPath none none demoWorld =
        .ok { demoWorld with fs := fs6 } () ∧
      lookupIn fs6.files demoGifPath =
        some (.gif (frameList demoGame.mainline) (durationVal none) false) ∧
      lookupIn fs6.files (optPathOf demoGifPath) = none) ∧
    (optStr none ≠ "new" → optStr none ≠ "overwrite" → optStr none ≠ "none" →
      ∃ fs4 : FS, main' demoReadGame demoPgnPath demoGifPath none none demoWorld =
        .err { demoWorld with fs := fs4 }
          (.valueError ("unknown value, optimized=" ++ optStr none))) :=
  claim_C4_optimized_options demoReadGame demoPgnPath demoGifPath none none demoWorld
    "1. e4" demoGame (by decide) (by decide) (by decide) (by decide) (by decide) (by decide)

/-- Witness for C5 (amended) at the invalid optimized value "bad". -/
theorem claim_C5_amended_error_after_output_witness :
    ∃ fs4 : FS,
      main' demoReadGame demoPgnPath demoGifPath none (some "bad") demoWorld =
        .err { demoWorld with fs := fs4 }
          (.valueError ("unknown value, optimized=" ++ optStr (some "bad"))) ∧
      lookupIn fs4.files demoGifPath =
        some (.gif (frameList demoGame.mainline) (durationVal none) false) :=
  claim_C5_amended_error_after_output demoReadGame demoPgnPath demoGifPath none (some "bad")
    demoWorld "1. e4" demoGame (by decide) (by decide) (by decide) (by decide) (by decide)
    (by decide) (by decide) (by decide)

/-- Witness for C6 (amended) at the one-move example game. -/
theorem claim_C6_amended_cleanup_witness :
    ((optStr none = "new" ∨ optStr none = "overwrite" ∨ optStr none = "none") →
      ∃ fs6 : FS, main' demoReadGame demoPgnPath demoGifPath none none demoWorld =
          .ok { demoWorld with fs := fs6 } () ∧
        CleanTemp { demoWorld with fs := fs6 }) ∧
    (optStr none ≠ "new" → optStr none ≠ "overwrite" → optStr none ≠ "none" →
      ∃ fs4 : FS, main' demoReadGame demoPgnPath demoGifPath none none demoWorld =
          .err { demoWorld with fs := fs4 }
            (.valueError ("unknown value, optimized=" ++ optStr none)) ∧
        (svgFile 0, Content.svg ⟨[]⟩) ∈ fs4.files) :=
  claim_C6_amended_cleanup demoReadGame demoPgnPath demoGifPath none none demoWorld
    "1. e4" demoGame (by decide) (by decide) (by decide) (by decide) (by decide) (by decide)

/-- Witness for C7 at the one-move example game without a duration option. -/
theorem claim_C7_duration_default_passthrough_witness :
    (parse_args demoPgnPath demoGifPath none none).duration = PyVal.int 1 ∧
    (parse_args demoPgnPath demoGifPath none none).duration = durationVal none ∧
    (∃ (fs6 : FS) (flag : Bool),
      main' demoReadGame demoPgnPath demoGifPath none none demoWorld =
        .ok { demoWorld with fs := fs6 } () ∧
      lookupIn fs6.files demoGifPath =
        some (.gif (frameList demoGame.mainline) (durationVal none) flag)) :=
  claim_C7_duration_default_passthrough demoReadGame demoPgnPath demoGifPath none none
    demoWorld "1. e4" demoGame (by decide) (by decide) (by decide) (by decide) (by decide)
    (by decide) (Or.inl rfl)

/-- Witness for C8 on a world with the notation file missing. -/
theorem claim_C8_io_error_propagates_witness :
    main' demoReadGame demoPgnPath demoGifPath none none demoEmptyWorld =
      .err demoEmptyWorld (.fileNotFoundError "No such file or directory") ∧
    read_pgn_file demoPgnPath demoEmptyWorld =
      .err demoEmptyWorld (.fileNotFoundError "No such file or directory") :=
  claim_C8_io_error_propagates demoReadGame demoPgnPath demoGifPath none none demoEmptyWorld
    (by decide)

/-- Witness for C9: a non-numeric stem raises, and stems 0..2 sort ascending. -/
theorem claim_C9_integer_stem_sort_witness :
    pngs_to_gif png_folder_path demoGifPath (PyVal.int 1) "new" demoStemWorld =
      .err demoStemWorld (.valueError "invalid literal for int with base 10") ∧
    (computeKeys ((List.range 3).map pngFile) =
      some ((List.range 3).map (fun i : Nat => ((i : Int), pngFile i))) ∧
     sortKeyed ((List.range 3).map (fun i : Nat => ((i : Int), pngFile i))) =
      (List.range 3).map (fun i : Nat => ((i : Int), pngFile i)) ∧
     ((sortKeyed ((List.range 3).map (fun i : Nat => ((i : Int), pngFile i)))).map
       (fun e => e.1)).Pairwise (fun a b : Int => a < b)) :=
  ⟨claim_C9_integer_stem_sort.1 png_folder_path demoGifPath (PyVal.int 1) "new" demoStemWorld
    (by decide),
   claim_C9_integer_stem_sort.2 3⟩

/-- Witness for C10 on concrete worlds with missing target directories. -/
theorem claim_C10_mkdir_before_writes_witness :
    (∃ fs2 : FS, save_svg (.svg ⟨[]⟩) ⟨["o"], "f", ".svg"⟩ demoEmptyWorld =
        .ok { demoEmptyWorld with fs := fs2 } () ∧
      fs2.DirExists (⟨["o"], "f", ".svg"⟩ : PyPath).parent ∧
      lookupIn fs2.files ⟨["o"], "f", ".svg"⟩ = some (.svg ⟨[]⟩)) ∧
    (∃ fs2 : FS, svg_to_png ⟨["s"], "0", ".svg"⟩ (some ⟨["p"], "0", ".png"⟩) demoSvgWorld =
        .ok { demoSvgWorld with fs := fs2 } () ∧
      fs2.DirExists (⟨["p"], "0", ".png"⟩ : PyPath).parent ∧
      lookupIn fs2.files ⟨["p"], "0", ".png"⟩ = some (.png ⟨[]⟩)) ∧
    (∃ fs2 : FS,
      pngs_to_gif png_folder_path demoGifPath (PyVal.int 1) "none" demoStagedWorld =
        .ok { demoStagedWorld with fs := fs2 } () ∧
      fs2.DirExists demoGifPath.parent ∧
      lookupIn fs2.files demoGifPath = some (.gif (frameList [7]) (PyVal.int 1) false)) :=
  ⟨claim_C10_mkdir_before_writes.1 (.svg ⟨[]⟩) ⟨["o"], "f", ".svg"⟩ demoEmptyWorld,
   claim_C10_mkdir_before_writes.2.1 ⟨["s"], "0", ".svg"⟩ ⟨["p"], "0", ".png"⟩ ⟨[]⟩
     demoSvgWorld (by decide),
   claim_C10_mkdir_before_writes.2.2 [7] [] demoStagedWorld demoGifPath (PyVal.int 1)
     (by decide) (by decide) (by decide) (by decide)⟩
